import Mathlib

set_option maxHeartbeats 1000000
set_option maxRecDepth 4000
set_option linter.unusedVariables false

/-!
Verification development for `hugegraph_llm/demo/rag_demo/rag_block.py`.

The file embeds the answer-orchestration and batch-evaluation pipeline of the
demo's RAG block: the interactive `rag_answer` operation, the upload loader
`read_file_to_excel`, the batch driver `several_rag_answer` and the scoring
operation `evaluate_rag`.  External collaborators (the retrieval pipeline's
`run`, the ragas metric scorers) are modelled as explicit oracle arguments;
pandas data frames are modelled column-major as association lists from column
name to cell list; the gradio warning/error surface is modelled as explicit
warning lists and `Except` results.
-/

/-! ### Cells and data frames (model of the pandas frames used by the block) -/

/-- A cell of a tabular document: missing (`NaN`/`None`), a string, or a list
of retrieved context strings (before JSON serialization). -/
inductive PCell where
  | none
  | str (s : String)
  | list (xs : List String)
  deriving DecidableEq

/-- Column-major data frame: ordered association list from column name to the
column's cells. -/
structure DataFrame where
  cols : List (String × List PCell)
  deriving DecidableEq

/-- First column (in order) with the given name. -/
def findCol (l : List (String × List PCell)) (name : String) : Option (List PCell) :=
  (l.find? (fun p => p.1 == name)).map Prod.snd

/-- Transform the cells of every column called `name` by `g`, leaving other
columns alone. -/
def colUpd (name : String) (g : List PCell → List PCell) (p : String × List PCell) :
    String × List PCell :=
  if p.1 == name then (p.1, g p.2) else p

/-- `df.at[i, name] = v` on an existing column: replace cell `i` of every
column called `name`. -/
def updF (name : String) (i : Nat) (v : PCell) : (String × List PCell) → String × List PCell :=
  colUpd name (fun cs => cs.set i v)

/-- `df[name].apply(f)`: map `f` over the cells of every column called `name`. -/
def mapF (name : String) (f : PCell → PCell) : (String × List PCell) → String × List PCell :=
  colUpd name (List.map f)

namespace DataFrame

def colNames (df : DataFrame) : List String := df.cols.map Prod.fst

/-- Row count (length of the first column; 0 for a frame with no columns). -/
def nrows (df : DataFrame) : Nat :=
  match df.cols with
  | [] => 0
  | c :: _ => c.2.length

def getCol (df : DataFrame) (name : String) : Option (List PCell) :=
  findCol df.cols name

def getCell (df : DataFrame) (i : Nat) (name : String) : Option PCell :=
  (df.getCol name).bind (fun cs => cs[i]?)

def hasCol (df : DataFrame) (name : String) : Bool :=
  df.cols.any (fun p => p.1 == name)

/-- `df.at[i, name] = v`: pandas `.at` enlarges the frame with a fresh
all-missing column when `name` is absent. -/
def setAt (df : DataFrame) (i : Nat) (name : String) (v : PCell) : DataFrame :=
  if df.hasCol name then ⟨df.cols.map (updF name i v)⟩
  else ⟨df.cols ++ [(name, (List.replicate df.nrows PCell.none).set i v)]⟩

/-- `df[name] = None`: a whole column of missing values (created if absent). -/
def setAllNone (df : DataFrame) (name : String) : DataFrame :=
  if df.hasCol name then
    ⟨df.cols.map (colUpd name (fun _ => List.replicate df.nrows PCell.none))⟩
  else ⟨df.cols ++ [(name, List.replicate df.nrows PCell.none)]⟩

/-- `df.dropna(axis=1, how="all")`: drop columns whose cells are all missing. -/
def dropnaCols (df : DataFrame) : DataFrame :=
  ⟨df.cols.filter (fun p => !(p.2.all (fun x => x == PCell.none)))⟩

/-- `df.head(n)`. -/
def headRows (df : DataFrame) (n : Nat) : DataFrame :=
  ⟨df.cols.map (fun p => (p.1, p.2.take n))⟩

/-- `df[name] = df[name].apply(f)`. -/
def mapCol (df : DataFrame) (name : String) (f : PCell → PCell) : DataFrame :=
  ⟨df.cols.map (mapF name f)⟩

/-- Column projection `df[[n for n in names if n in df.columns]]`. -/
def select (df : DataFrame) (names : List String) : DataFrame :=
  ⟨(names.filter (fun n => df.hasCol n)).filterMap
    (fun n => (findCol df.cols n).map (fun cs => (n, cs)))⟩

end DataFrame

/-! ### Column-name and message constants of the block -/

def colQuestion : String := "Question"
def colGraphOnly : String := "Graph-only Answer"
def colGraphVector : String := "Graph-Vector Answer"
def colVectorOnly : String := "Vector-only Answer"
def colBasic : String := "Basic LLM Answer"
def colExpected : String := "Expected Answer"
def colVectorCtx : String := "Vector Contexts"
def colGraphCtx : String := "Graph Contexts"
def colGraphVectorCtx : String := "Graph-Vector Contexts"

def tests_df_headers : List String :=
  [colQuestion, colGraphOnly, colGraphVector, colVectorOnly, colBasic, colExpected]

/-- `rag_answer_header_dict`: answer-mode column → its context column. -/
def rag_answer_header_dict : List (String × String) :=
  [(colVectorOnly, colVectorCtx), (colGraphOnly, colGraphCtx),
   (colGraphVector, colGraphVectorCtx)]

def noModeWarning : String := "Please select at least one generate mode."
def bleuFallbackWarning : String :=
  "Online reranker fails, automatically switches to local bleu rerank."
def emptyFileWarning : String := "No data in the file."
def unsupportedFileError : String := "Only support .xlsx and .csv files."
def noAnswersError : String := "No RAG answers found in the answer file."
def unpackErrorMsg : String := "not enough values to unpack (expected 5, got 4)"
def unexpectedErrHead : String := "An unexpected error occurred: "
def fileNotFoundError : String := "FileNotFoundError"
def keyErrorMsg : String := "KeyError"
def jsonDecodeErrorMsg : String := "JSONDecodeError"

/-! ### Python values for the `raw_answer is False` identity test -/

/-- The values the `raw_answer` argument can take at the `is False` test:
booleans, `None`, or an integer (`0` is falsy but is not the `False`
singleton). -/
inductive PyVal where
  | pyBool (b : Bool)
  | pyNone
  | pyInt (n : Int)
  deriving DecidableEq

/-- Python truthiness of a `PyVal`. -/
def pyTruthy : PyVal → Bool
  | PyVal.pyBool b => b
  | PyVal.pyNone => false
  | PyVal.pyInt n => n != 0

/-- `v is False`: identity with the `False` singleton holds exactly for the
boolean `False`. -/
def pyIsFalse (v : PyVal) : Bool := v == PyVal.pyBool false

/-! ### Prompt configuration state (module-global `prompt` object) -/

structure PromptConfig where
  default_question : String
  answer_prompt : String
  custom_rerank_info : String
  deriving DecidableEq

/-- In-memory config, its persisted (yaml) copy, and a count of
`update_yaml_file` calls. -/
structure ConfigState where
  config : PromptConfig
  persisted : PromptConfig
  yamlWrites : Nat
  deriving DecidableEq

/-- Lines 56-61 of `rag_answer`: overwrite and persist the prompt snapshot
when the question, the answer prompt, or the rerank hint differs. -/
def update_prompt_config (st : ConfigState) (text answer_prompt
    custom_related_information : String) : ConfigState :=
  let should_update_prompt :=
    (st.config.default_question != text) || (st.config.answer_prompt != answer_prompt)
  if should_update_prompt || (st.config.custom_rerank_info != custom_related_information) then
    let c : PromptConfig := ⟨text, answer_prompt, custom_related_information⟩
    ⟨c, c, st.yamlWrites + 1⟩
  else st

/-! ### The RAG pipeline collaborator -/

/-- Pipeline stages composed onto the `RAGPipeline` builder. -/
inductive Stage where
  | query_vector_index
  | extract_keywords
  | keywords_to_vid
  | query_graphdb
  | merge_dedup_rerank
  | synthesize_answer
  deriving DecidableEq

inductive RerankMethod where
  | bleu
  | reranker
  deriving DecidableEq

/-- The loosely-keyed mapping returned by `rag.run(...)`. -/
structure RunContext where
  switch_to_bleu : Bool
  raw_answer_result : Option String
  vector_only_answer_result : Option String
  graph_only_answer_result : Option String
  graph_vector_answer_result : Option String
  vector_contexts : Option (List String)
  graph_contexts : Option (List String)
  graph_vector_contexts : Option (List String)
  deriving DecidableEq

/-- A failure raised by `rag.run`: Python `ValueError` vs. any other
exception (the two `except` arms of `rag_answer`). -/
inductive RunError where
  | valueError (msg : String)
  | unexpected (msg : String)
  deriving DecidableEq

/-- How `rag_answer` wraps a `rag.run` failure into the single user-facing
`gr.Error`. -/
def wrapRunError : RunError → String
  | RunError.valueError m => m
  | RunError.unexpected m => unexpectedErrHead ++ m

/-- The oracle for the external retrieval/synthesis collaborator: the
behaviour of `rag.run` on a given query. -/
def RunOracle : Type := String → Except RunError RunContext

/-- The dict literal returned as the fifth component of `rag_answer`. -/
structure ContextDict where
  vector_contexts : Option (List String)
  graph_contexts : Option (List String)
  graph_vector_contexts : Option (List String)
  deriving DecidableEq

/-- The value returned by `rag_answer`: a 4-tuple on the no-mode validation
path, a 5-tuple (answers plus context dict) on the success path. -/
inductive RagReturn where
  | four (a b c d : String)
  | five (a b c d : String) (contexts : ContextDict)
  deriving DecidableEq

/-- Number of components of the returned tuple. -/
def RagReturn.arity : RagReturn → Nat
  | RagReturn.four _ _ _ _ => 4
  | RagReturn.five _ _ _ _ _ => 5

/-- Observable outcome of one `rag_answer` call: the new config state, the
`gr.Warning`s emitted, the stages composed onto the pipeline, whether
`rag.run` was invoked, and the returned value or raised `gr.Error`. -/
structure RagOutcome where
  state : ConfigState
  warnings : List String
  stages : List Stage
  ran : Bool
  result : Except String RagReturn

/-- The stages composed onto the `RAGPipeline` builder (lines 69-76): vector
retrieval when `vector_search`, the keyword-extraction → vertex-ID →
graph-query chain when `graph_search`, then fusion and synthesis. -/
def ragStages (vector_search graph_search : Bool) : List Stage :=
  (if vector_search then [Stage.query_vector_index] else []) ++
  (if graph_search then
    [Stage.extract_keywords, Stage.keywords_to_vid, Stage.query_graphdb] else []) ++
  [Stage.merge_dedup_rerank, Stage.synthesize_answer]

/-- `rag_answer` (lines 36-105): reconcile the prompt snapshot, validate the
mode flags, compose the pipeline, run it and package the results. -/
def rag_answer (run_oracle : RunOracle) (st : ConfigState)
    (text : String) (raw_answer : PyVal)
    (vector_only_answer graph_only_answer graph_vector_answer : Bool)
    ( graph_ratio : ℚ) (rerank_method : RerankMethod) (near_neighbor_first : Bool)
    (custom_related_information answer_prompt : String) : RagOutcome :=
  let st1 := update_prompt_config st text answer_prompt custom_related_information
  let vector_search := vector_only_answer || graph_vector_answer
  let graph_search := graph_only_answer || graph_vector_answer
  if pyIsFalse raw_answer && !vector_search && !graph_search then
    ⟨st1, [noModeWarning], [], false, Except.ok (RagReturn.four "" "" "" "")⟩
  else
    let stages := ragStages vector_search graph_search
    match run_oracle text with
    | Except.error e => ⟨st1, [], stages, true, Except.error (wrapRunError e)⟩
    | Except.ok ctx =>
        let warns := if ctx.switch_to_bleu then [bleuFallbackWarning] else []
        ⟨st1, warns, stages, true,
          Except.ok (RagReturn.five
            (ctx.raw_answer_result.getD "")
            (ctx.vector_only_answer_result.getD "")
            (ctx.graph_only_answer_result.getD "")
            (ctx.graph_vector_answer_result.getD "")
            ⟨ctx.vector_contexts, ctx.graph_contexts, ctx.graph_vector_contexts⟩)⟩

/-! ### JSON serialization of context columns (`json.dumps` / `json.loads`) -/

/-- JSON string escaping (the two escapes `json.dumps` always emits). -/
def jsonEscape (s : String) : String :=
  s.data.foldl
    (fun acc c =>
      if c = '\\' then acc ++ "\\\\"
      else if c = '"' then acc ++ "\\\""
      else acc.push c) ""

def jsonQuote (s : String) : String := "\"" ++ jsonEscape s ++ "\""

/-- `json.dumps` of a list of context strings (`ensure_ascii=False`). -/
def jsonDumpsList (xs : List String) : String :=
  "[" ++ String.intercalate ", " (xs.map jsonQuote) ++ "]"

def nullLit : String := "null"

/-- `json.dumps` applied to a context cell: a missing cell serializes to
`null`, a list to a JSON array, a string to a JSON string. -/
def jsonDumpsCell : PCell → PCell
  | PCell.none => PCell.str nullLit
  | PCell.str s => PCell.str (jsonQuote s)
  | PCell.list xs => PCell.str (jsonDumpsList xs)

/-- Parse the body of a JSON string (after the opening quote); fuel-driven.
Returns the unescaped characters and the rest of the input. -/
def parseJStrF : Nat → List Char → Option (List Char × List Char)
  | 0, _ => Option.none
  | _ + 1, [] => Option.none
  | fuel + 1, c :: rest =>
    if c = '"' then Option.some ([], rest)
    else if c = '\\' then
      match rest with
      | [] => Option.none
      | d :: rest2 => (parseJStrF fuel rest2).map (fun p => (d :: p.1, p.2))
    else (parseJStrF fuel rest).map (fun p => (c :: p.1, p.2))

def isSpaceChar (c : Char) : Bool := c == Char.ofNat 32

/-- Parse the items of a JSON array of strings (after the opening bracket). -/
def parseItems : Nat → List Char → Option (List String × List Char)
  | 0, _ => Option.none
  | fuel + 1, cs =>
    match cs.dropWhile isSpaceChar with
    | ']' :: rest => Option.some ([], rest)
    | '"' :: rest =>
      match parseJStrF fuel rest with
      | Option.none => Option.none
      | Option.some (item, rest2) =>
        match rest2.dropWhile isSpaceChar with
        | ',' :: rest3 =>
          (parseItems fuel rest3).map (fun p => (String.mk item :: p.1, p.2))
        | ']' :: rest3 => Option.some ([String.mk item], rest3)
        | _ => Option.none
    | _ => Option.none

/-- `json.loads` applied to a context cell read back from the answers file:
succeeds on `null` and on JSON arrays of strings, fails (raises) otherwise. -/
def jsonLoadsCell : PCell → Option PCell
  | PCell.str s =>
    if s = nullLit then Option.some PCell.none
    else
      match s.data with
      | '[' :: rest =>
        match parseItems (s.length + 1) rest with
        | Option.some (items, []) => Option.some (PCell.list items)
        | _ => Option.none
      | _ => Option.none
  | _ => Option.none

/-! ### Tabular storage locations and the upload loader -/

/-- The two well-known tabular storage locations of the block:
`questions.xlsx` and `questions_answers.xlsx` (`Option.none` = file absent). -/
structure FileSystem where
  questions : Option DataFrame
  answers : Option DataFrame
  deriving DecidableEq

/-- An uploaded file: its name (for the extension check) and its tabular
content. -/
structure NamedFile where
  name : String
  content : DataFrame
  deriving DecidableEq

/-- `pd.read_excel(path, nrows=n)` / `pd.read_csv(path, nrows=n)`. -/
def truncRows (df : DataFrame) : Option Nat → DataFrame
  | Option.none => df
  | Option.some n => df.headRows n

/-- Outcome of `read_file_to_excel`: resulting storage state, warnings, and
the returned `(preview frame, line count)` or the raised `gr.Error`. -/
structure ReadOutcome where
  fs : FileSystem
  warnings : List String
  result : Except String (DataFrame × Nat)

def xlsxSuffix : String := ".xlsx"
def csvSuffix : String := ".csv"

/-- `name.endswith(suffix)` (modelled on the character lists so that it is
kernel-computable). -/
def strEndsWith (s suffix : String) : Bool :=
  List.isSuffixOf suffix.data s.data

/-- `read_file_to_excel` (lines 205-223): remove any previous answers file,
validate the upload, store the question list, and return the preview. -/
def read_file_to_excel (fs : FileSystem) (file : Option NamedFile)
    (line_count : Option Nat) : ReadOutcome :=
  let fs1 : FileSystem := ⟨fs.questions, Option.none⟩
  match file with
  | Option.none => ⟨fs1, [], Except.ok (⟨[]⟩, 1)⟩
  | Option.some f =>
    if strEndsWith f.name xlsxSuffix || strEndsWith f.name csvSuffix then
      let df := truncRows f.content line_count
      let fs2 : FileSystem := ⟨Option.some df, Option.none⟩
      if df.nrows > 40 then ⟨fs2, [], Except.ok (df.headRows 40, 40)⟩
      else if df.nrows = 0 then ⟨fs2, [emptyFileWarning], Except.ok (df, df.nrows)⟩
      else ⟨fs2, [], Except.ok (df, df.nrows)⟩
    else ⟨fs1, [], Except.error unsupportedFileError⟩

/-! ### The batch driver `several_rag_answer` -/

/-- `x if x else None` on an answer string. -/
def strOrNoneCell (s : String) : PCell :=
  if s = "" then PCell.none else PCell.str s

/-- `contexts.get(key)` written into a context cell. -/
def optListCell : Option (List String) → PCell
  | Option.none => PCell.none
  | Option.some xs => PCell.list xs

/-- State after the per-row loop of `several_rag_answer`. -/
structure LoopOut where
  df : DataFrame
  cfg : ConfigState
  trace : List Nat
  warnings : List String
  err : Option String

/-- Questions of the batch: first column of the questions frame
(`row.iloc[0]` for each row). -/
def firstColQuestions (df : DataFrame) : List String :=
  match df.cols with
  | [] => []
  | c :: _ => c.2.map (fun x => match x with | PCell.str s => s | _ => "")

/-- Lines 263-273 of `several_rag_answer`: write one row's four answer cells,
create the three context columns if absent, and write the row's three context
cells. -/
def writeRowCells (df : DataFrame) (i : Nat) (a b c d : String)
    (ctxs : ContextDict) : DataFrame :=
  let df1 := df.setAt i colBasic (strOrNoneCell a)
  let df2 := df1.setAt i colVectorOnly (strOrNoneCell b)
  let df3 := df2.setAt i colGraphOnly (strOrNoneCell c)
  let df4 := df3.setAt i colGraphVector (strOrNoneCell d)
  let df5 := if df4.hasCol colVectorCtx then df4
    else ((df4.setAllNone colVectorCtx).setAllNone colGraphCtx).setAllNone
      colGraphVectorCtx
  let df6 := df5.setAt i colVectorCtx (optListCell ctxs.vector_contexts)
  let df7 := df6.setAt i colGraphCtx (optListCell ctxs.graph_contexts)
  df7.setAt i colGraphVectorCtx (optListCell ctxs.graph_vector_contexts)

/-- The per-row loop of `several_rag_answer` (lines 249-274): call
`rag_answer` on each question in order, destructure its 5-tuple, write the
answer and context cells, and report progress; an error aborts the rest. -/
def batchLoop (run_oracle : RunOracle) (is_raw_answer : PyVal)
    (is_vector_only_answer is_graph_only_answer is_graph_vector_answer : Bool)
    ( graph_ratio : ℚ) (rerank_method : RerankMethod) (near_neighbor_first : Bool)
    (custom_related_information answer_prompt : String) :
    Nat → List String → DataFrame → ConfigState → LoopOut
  | _, [], df, cfg => ⟨df, cfg, [], [], Option.none⟩
  | i, question :: rest, df, cfg =>
    let out := rag_answer run_oracle cfg question is_raw_answer
      is_vector_only_answer is_graph_only_answer is_graph_vector_answer
      graph_ratio rerank_method near_neighbor_first
      custom_related_information answer_prompt
    match out.result with
    | Except.error e => ⟨df, out.state, [], out.warnings, Option.some e⟩
    | Except.ok (RagReturn.four _ _ _ _) =>
        ⟨df, out.state, [], out.warnings, Option.some unpackErrorMsg⟩
    | Except.ok (RagReturn.five a b c d ctxs) =>
        let df8 := writeRowCells df i a b c d ctxs
        let r := batchLoop run_oracle is_raw_answer
          is_vector_only_answer is_graph_only_answer is_graph_vector_answer
          graph_ratio rerank_method near_neighbor_first
          custom_related_information answer_prompt (i + 1) rest df8 out.state
        ⟨r.df, r.cfg, i :: r.trace, out.warnings ++ r.warnings, r.err⟩

/-- Outcome of `several_rag_answer`: storage state, config state, completed
row indices in completion order, warnings, and the returned preview frame or
the propagated error. -/
structure BatchOutcome where
  fs : FileSystem
  cfg : ConfigState
  trace : List Nat
  warnings : List String
  result : Except String DataFrame

/-- `several_rag_answer` (lines 234-282): read the questions file, run the
per-row loop, drop all-missing columns, project the preview, serialize the
context columns and persist the answers file. -/
def several_rag_answer (run_oracle : RunOracle) (is_raw_answer : PyVal)
    (is_vector_only_answer is_graph_only_answer is_graph_vector_answer : Bool)
    ( graph_ratio : ℚ) (rerank_method : RerankMethod) (near_neighbor_first : Bool)
    (custom_related_information answer_prompt : String)
    (answer_max_line_count : Nat) (fs : FileSystem) (cfg : ConfigState) :
    BatchOutcome :=
  match fs.questions with
  | Option.none => ⟨fs, cfg, [], [], Except.error fileNotFoundError⟩
  | Option.some qdf =>
    let lo := batchLoop run_oracle is_raw_answer
      is_vector_only_answer is_graph_only_answer is_graph_vector_answer
      graph_ratio rerank_method near_neighbor_first
      custom_related_information answer_prompt 0 (firstColQuestions qdf) qdf cfg
    match lo.err with
    | Option.some e => ⟨fs, lo.cfg, lo.trace, lo.warnings, Except.error e⟩
    | Option.none =>
      let df := lo.df.dropnaCols
      let df_to_show := df.select tests_df_headers
      let df2 := (rag_answer_header_dict.map Prod.snd).foldl
        (fun acc h => if acc.hasCol h then acc.mapCol h jsonDumpsCell else acc) df
      ⟨⟨fs.questions, Option.some df2⟩, lo.cfg, lo.trace, lo.warnings,
        Except.ok (df_to_show.headRows answer_max_line_count)⟩

/-! ### The evaluation operation `evaluate_rag` -/

/-- The quadruple set handed to the metric scorers for one answer mode. -/
structure RagData where
  question : List PCell
  answer : List PCell
  contexts : List PCell
  ground_truth : List PCell

/-- Outcome of `evaluate_rag`: how many times the metric scorer collaborator
was invoked, and the scored rows `(method name, score row)` or the raised
error. -/
structure EvalOutcome (σ : Type) where
  scorerCalls : Nat
  result : Except String (List (String × σ))

/-- The context column paired with an answer-mode column. -/
def ctxHeaderOf (ans : String) : String :=
  ((rag_answer_header_dict.find? (fun p => p.1 == ans)).map Prod.snd).getD ""

/-- The per-mode loop of `evaluate_rag` (lines 321-333): deserialize the
context column, assemble the quadruple set, invoke the scorer, and append one
row per mode. -/
def evalLoop {σ : Type} (scorer : RagData → List String → σ) (metrics : List String) :
    List String → DataFrame → Nat → List (String × σ) → EvalOutcome σ
  | [], _, calls, acc => ⟨calls, Except.ok acc⟩
  | ans :: rest, adf, calls, acc =>
    match adf.getCol (ctxHeaderOf ans) with
    | Option.none => ⟨calls, Except.error keyErrorMsg⟩
    | Option.some cells =>
      match cells.mapM jsonLoadsCell with
      | Option.none => ⟨calls, Except.error jsonDecodeErrorMsg⟩
      | Option.some loaded =>
        let adf1 : DataFrame := ⟨adf.cols.map (colUpd (ctxHeaderOf ans) (fun _ => loaded))⟩
        match adf1.getCol colQuestion, adf1.getCol ans,
            adf1.getCol (ctxHeaderOf ans), adf1.getCol colExpected with
        | Option.some qs, Option.some ans_cells, Option.some ctx_cells,
            Option.some gts =>
          evalLoop scorer metrics rest adf1 (calls + 1)
            (acc ++ [(ans, scorer ⟨qs, ans_cells, ctx_cells, gts⟩ metrics)])
        | _, _, _, _ => ⟨calls, Except.error keyErrorMsg⟩

/-- `evaluate_rag` (lines 313-335): load the answers file, truncate to `num`
rows, require at least one recognized answer-mode column, then score each
mode present (in the fixed `rag_answer_header_dict` key order). -/
def evaluate_rag {σ : Type} (scorer : RagData → List String → σ)
    (fs : FileSystem) (metrics : List String) (num : Nat) : EvalOutcome σ :=
  match fs.answers with
  | Option.none => ⟨0, Except.error fileNotFoundError⟩
  | Option.some df0 =>
    let answers_df := df0.headRows num
    if !(answers_df.colNames.any
        (fun c => rag_answer_header_dict.any (fun p => p.1 == c))) then
      ⟨0, Except.error noAnswersError⟩
    else
      let rag_answers := (rag_answer_header_dict.map Prod.fst).filter
        (fun ans => answers_df.hasCol ans)
      evalLoop scorer metrics rag_answers answers_df 0 []

/-! ### Predicates used in theorem statements -/

/-- The three stages of the graph retrieval chain. -/
def isGraphStage (s : Stage) : Bool :=
  s == Stage.extract_keywords || s == Stage.keywords_to_vid || s == Stage.query_graphdb

/-- Every column of this name (if any) has `N` cells. -/
def colLenOK (df : DataFrame) (name : String) (N : Nat) : Prop :=
  ∀ cs, df.getCol name = Option.some cs → cs.length = N

/-- The frame is rectangular: every column has `nrows` cells (true of any
frame read from a tabular file). -/
def rectangular (df : DataFrame) : Prop :=
  ∀ p ∈ df.cols, p.2.length = df.nrows

/-- The retrieval collaborator always succeeds but its online reranker always
fails: every run reports `switch_to_bleu`, and still produces a non-empty
graph-vector answer and a graph-vector context list. -/
def AlwaysFallbackOracle (run_oracle : RunOracle) : Prop :=
  ∀ q, ∃ ctx, run_oracle q = Except.ok ctx ∧ ctx.switch_to_bleu = true ∧
    (∃ s, ctx.graph_vector_answer_result = Option.some s ∧ s ≠ "") ∧
    (∃ xs, ctx.graph_vector_contexts = Option.some xs)

/-! ### Helper lemmas about columns -/

theorem colUpd_fst (name : String) (g : List PCell → List PCell)
    (p : String × List PCell) : (colUpd name g p).1 = p.1 := by
  unfold colUpd
  split <;> rfl

theorem findCol_nil (name : String) : findCol [] name = Option.none := rfl

theorem findCol_cons (p : String × List PCell) (l : List (String × List PCell))
    (name : String) :
    findCol (p :: l) name =
      if p.1 = name then Option.some p.2 else findCol l name := by
  by_cases h : p.1 = name <;> simp [findCol, List.find?_cons, h]

theorem names_map_colUpd (l : List (String × List PCell)) (name : String)
    (g : List PCell → List PCell) :
    (l.map (colUpd name g)).map Prod.fst = l.map Prod.fst := by
  induction l with
  | nil => rfl
  | cons p t ih => simp [colUpd_fst, ih]

theorem findCol_map_colUpd_self (l : List (String × List PCell)) (name : String)
    (g : List PCell → List PCell) :
    findCol (l.map (colUpd name g)) name = (findCol l name).map g := by
  induction l with
  | nil => rfl
  | cons p t ih =>
    by_cases h : p.1 = name
    · simp [findCol_cons, colUpd, h]
    · simp only [List.map_cons, findCol_cons, colUpd_fst, h, if_false, ih]

theorem findCol_map_colUpd_ne (l : List (String × List PCell)) (name name' : String)
    (g : List PCell → List PCell) (h : name' ≠ name) :
    findCol (l.map (colUpd name g)) name' = findCol l name' := by
  induction l with
  | nil => rfl
  | cons p t ih =>
    by_cases hp : p.1 = name'
    · have hpn : ¬ p.1 = name := by rw [hp]; exact h
      simp [findCol_cons, colUpd, hpn, hp, h]
    · simp only [List.map_cons, findCol_cons, colUpd_fst, hp, if_false, ih]

theorem findCol_append (l1 l2 : List (String × List PCell)) (name : String) :
    findCol (l1 ++ l2) name = (findCol l1 name).or (findCol l2 name) := by
  unfold findCol
  rw [List.find?_append]
  cases List.find? (fun p => p.1 == name) l1 <;> simp

theorem mem_of_findCol_some {l : List (String × List PCell)} {name : String}
    {cs : List PCell} (h : findCol l name = Option.some cs) :
    name ∈ l.map Prod.fst := by
  unfold findCol at h
  cases hf : l.find? (fun p => p.1 == name) with
  | none => rw [hf] at h; exact absurd h (by simp)
  | some q =>
    have hq : q.1 = name := by simpa using List.find?_some hf
    have hm : q ∈ l := List.mem_of_find?_eq_some hf
    rw [← hq]
    exact List.mem_map_of_mem Prod.fst hm

theorem findCol_eq_none_of_not_mem {l : List (String × List PCell)} {name : String}
    (h : name ∉ l.map Prod.fst) : findCol l name = Option.none := by
  cases hf : findCol l name with
  | none => rfl
  | some cs => exact absurd (mem_of_findCol_some hf) h

theorem findCol_filter {l : List (String × List PCell)} {name : String}
    {cs : List PCell} (keep : String × List PCell → Bool)
    (h : findCol l name = Option.some cs) (hk : keep (name, cs) = true) :
    findCol (l.filter keep) name = Option.some cs := by
  induction l with
  | nil => simp [findCol_nil] at h
  | cons p t ih =>
    rw [findCol_cons] at h
    by_cases hp : p.1 = name
    · rw [if_pos hp] at h
      have h2 : p.2 = cs := Option.some.inj h
      have hpcs : p = (name, cs) := by
        cases p
        simp_all
      subst hpcs
      rw [List.filter_cons, if_pos hk, findCol_cons, if_pos rfl]
    · rw [if_neg hp] at h
      rw [List.filter_cons]
      split
      · rw [findCol_cons, if_neg hp]
        exact ih h
      · exact ih h

namespace DataFrame

theorem hasCol_iff_mem {df : DataFrame} {name : String} :
    df.hasCol name = true ↔ name ∈ df.colNames := by
  unfold hasCol colNames
  simp [List.any_eq_true]

theorem hasCol_of_findCol_some {df : DataFrame} {name : String} {cs : List PCell}
    (h : df.getCol name = Option.some cs) : df.hasCol name = true :=
  hasCol_iff_mem.mpr (mem_of_findCol_some h)

theorem getCol_eq_none_of_hasCol_false {df : DataFrame} {name : String}
    (h : df.hasCol name = false) : df.getCol name = Option.none := by
  apply findCol_eq_none_of_not_mem
  intro hm
  rw [hasCol_iff_mem.mpr hm] at h
  exact absurd h (by simp)

theorem getCol_setAt_ne (df : DataFrame) (i : Nat) (name name' : String)
    (v : PCell) (h : name' ≠ name) :
    (df.setAt i name v).getCol name' = df.getCol name' := by
  unfold setAt
  split
  · exact findCol_map_colUpd_ne df.cols name name' _ h
  · show findCol (df.cols ++ [(name, _)]) name' = findCol df.cols name'
    rw [findCol_append]
    cases hf : findCol df.cols name' with
    | some cs => rfl
    | none => simp [findCol_cons, findCol_nil, Ne.symm h, Option.or]

theorem getCol_setAt_self_of_hasCol (df : DataFrame) (i : Nat) (name : String)
    (v : PCell) (h : df.hasCol name = true) :
    (df.setAt i name v).getCol name = (df.getCol name).map (fun cs => cs.set i v) := by
  unfold setAt
  rw [if_pos h]
  exact findCol_map_colUpd_self df.cols name _

theorem getCol_setAt_self_of_absent (df : DataFrame) (i : Nat) (name : String)
    (v : PCell) (h : df.hasCol name = false) :
    (df.setAt i name v).getCol name =
      Option.some ((List.replicate df.nrows PCell.none).set i v) := by
  unfold setAt
  rw [if_neg (by simp [h])]
  show findCol (df.cols ++ [(name, _)]) name = _
  rw [findCol_append,
    show findCol df.cols name = Option.none from getCol_eq_none_of_hasCol_false h]
  simp [findCol_cons, Option.or]

theorem getCol_setAllNone_ne (df : DataFrame) (name name' : String)
    (h : name' ≠ name) :
    (df.setAllNone name).getCol name' = df.getCol name' := by
  unfold setAllNone
  split
  · exact findCol_map_colUpd_ne df.cols name name' _ h
  · show findCol (df.cols ++ [(name, _)]) name' = findCol df.cols name'
    rw [findCol_append]
    cases hf : findCol df.cols name' with
    | some cs => rfl
    | none => simp [findCol_cons, findCol_nil, Ne.symm h, Option.or]

theorem getCol_mapCol_ne (df : DataFrame) (name name' : String) (f : PCell → PCell)
    (h : name' ≠ name) : (df.mapCol name f).getCol name' = df.getCol name' :=
  findCol_map_colUpd_ne df.cols name name' _ h

theorem getCol_mapCol_self (df : DataFrame) (name : String) (f : PCell → PCell) :
    (df.mapCol name f).getCol name = (df.getCol name).map (List.map f) :=
  findCol_map_colUpd_self df.cols name _

theorem colNames_setAt (df : DataFrame) (i : Nat) (name : String) (v : PCell) :
    (df.setAt i name v).colNames =
      if df.hasCol name then df.colNames else df.colNames ++ [name] := by
  unfold setAt colNames
  split
  · simp [updF, names_map_colUpd, colUpd_fst]
  · simp

theorem mem_colNames_setAt (df : DataFrame) (i : Nat) (name name' : String)
    (v : PCell) (h : name' ∈ df.colNames) :
    name' ∈ (df.setAt i name v).colNames := by
  rw [colNames_setAt]
  split
  · exact h
  · exact List.mem_append_left _ h

theorem colNames_setAllNone (df : DataFrame) (name : String) :
    (df.setAllNone name).colNames =
      if df.hasCol name then df.colNames else df.colNames ++ [name] := by
  unfold setAllNone colNames
  split
  · simp [names_map_colUpd, colUpd_fst]
  · simp

theorem mem_colNames_setAllNone (df : DataFrame) (name name' : String)
    (h : name' ∈ df.colNames) : name' ∈ (df.setAllNone name).colNames := by
  rw [colNames_setAllNone]
  split
  · exact h
  · exact List.mem_append_left _ h

theorem self_mem_colNames_setAllNone (df : DataFrame) (name : String) :
    name ∈ (df.setAllNone name).colNames := by
  rw [colNames_setAllNone]
  split
  · exact hasCol_iff_mem.mp (by assumption)
  · exact List.mem_append_right _ (by simp)

end DataFrame

/-! ### Evaluation lemmas for `rag_answer` -/

theorem rag_answer_validation_eq (run_oracle : RunOracle) (st : ConfigState)
    (text : String) (raw_answer : PyVal) (v g gv : Bool) ( graph_ratio : ℚ)
    (rm : RerankMethod) (nnf : Bool) (cri ap : String)
    (hv : (pyIsFalse raw_answer && !(v || gv) && !(g || gv)) = true) :
    rag_answer run_oracle st text raw_answer v g gv graph_ratio rm nnf cri ap =
      ⟨update_prompt_config st text ap cri, [noModeWarning], [], false,
        Except.ok (RagReturn.four "" "" "" "")⟩ := by
  unfold rag_answer
  simp only [hv, if_true]

theorem rag_answer_ok_eq (run_oracle : RunOracle) (st : ConfigState)
    (text : String) (raw_answer : PyVal) (v g gv : Bool) ( graph_ratio : ℚ)
    (rm : RerankMethod) (nnf : Bool) (cri ap : String) (ctx : RunContext)
    (hv : (pyIsFalse raw_answer && !(v || gv) && !(g || gv)) = false)
    (hctx : run_oracle text = Except.ok ctx) :
    rag_answer run_oracle st text raw_answer v g gv graph_ratio rm nnf cri ap =
      ⟨update_prompt_config st text ap cri,
        (if ctx.switch_to_bleu then [bleuFallbackWarning] else []),
        ragStages (v || gv) (g || gv), true,
        Except.ok (RagReturn.five
          (ctx.raw_answer_result.getD "")
          (ctx.vector_only_answer_result.getD "")
          (ctx.graph_only_answer_result.getD "")
          (ctx.graph_vector_answer_result.getD "")
          ⟨ctx.vector_contexts, ctx.graph_contexts, ctx.graph_vector_contexts⟩)⟩ := by
  unfold rag_answer
  simp only [hv, hctx, Bool.false_eq_true, if_false]

theorem rag_answer_error_eq (run_oracle : RunOracle) (st : ConfigState)
    (text : String) (raw_answer : PyVal) (v g gv : Bool) ( graph_ratio : ℚ)
    (rm : RerankMethod) (nnf : Bool) (cri ap : String) (e : RunError)
    (hv : (pyIsFalse raw_answer && !(v || gv) && !(g || gv)) = false)
    (hctx : run_oracle text = Except.error e) :
    rag_answer run_oracle st text raw_answer v g gv graph_ratio rm nnf cri ap =
      ⟨update_prompt_config st text ap cri, [],
        ragStages (v || gv) (g || gv), true, Except.error (wrapRunError e)⟩ := by
  unfold rag_answer
  simp only [hv, hctx, Bool.false_eq_true, if_false]

theorem rag_answer_state_eq (run_oracle : RunOracle) (st : ConfigState)
    (text : String) (raw_answer : PyVal) (v g gv : Bool) ( graph_ratio : ℚ)
    (rm : RerankMethod) (nnf : Bool) (cri ap : String) :
    (rag_answer run_oracle st text raw_answer v g gv graph_ratio rm nnf cri ap).state =
      update_prompt_config st text ap cri := by
  cases hv : (pyIsFalse raw_answer && !(v || gv) && !(g || gv)) with
  | true =>
    rw [rag_answer_validation_eq _ _ _ _ _ _ _ _ _ _ _ _ hv]
  | false =>
    cases hctx : run_oracle text with
    | ok ctx => rw [rag_answer_ok_eq _ _ _ _ _ _ _ _ _ _ _ _ _ hv hctx]
    | error e => rw [rag_answer_error_eq _ _ _ _ _ _ _ _ _ _ _ _ _ hv hctx]

theorem rag_answer_stages_eq (run_oracle : RunOracle) (st : ConfigState)
    (text : String) (raw_answer : PyVal) (v g gv : Bool) ( graph_ratio : ℚ)
    (rm : RerankMethod) (nnf : Bool) (cri ap : String) :
    (rag_answer run_oracle st text raw_answer v g gv graph_ratio rm nnf cri ap).stages =
      if pyIsFalse raw_answer && !(v || gv) && !(g || gv) then []
      else ragStages (v || gv) (g || gv) := by
  cases hv : (pyIsFalse raw_answer && !(v || gv) && !(g || gv)) with
  | true =>
    rw [rag_answer_validation_eq _ _ _ _ _ _ _ _ _ _ _ _ hv, if_pos rfl]
  | false =>
    cases hctx : run_oracle text with
    | ok ctx =>
      rw [rag_answer_ok_eq _ _ _ _ _ _ _ _ _ _ _ _ _ hv hctx]
      rfl
    | error e =>
      rw [rag_answer_error_eq _ _ _ _ _ _ _ _ _ _ _ _ _ hv hctx]
      rfl

/-! ### Claim C1 -/

/-- C1: for every request in which all four mode flags are false, `rag_answer`
emits the validation warning, returns the empty string for every mode, and
neither composes nor runs any pipeline stage. -/
theorem C1_no_mode_warning_empty_result (run_oracle : RunOracle) (st : ConfigState)
    (text : String) ( graph_ratio : ℚ) (rm : RerankMethod) (nnf : Bool)
    (cri ap : String) :
    (rag_answer run_oracle st text (PyVal.pyBool false) false false false
      graph_ratio rm nnf cri ap).warnings = [noModeWarning] ∧
    (rag_answer run_oracle st text (PyVal.pyBool false) false false false
      graph_ratio rm nnf cri ap).result =
        Except.ok (RagReturn.four "" "" "" "") ∧
    (rag_answer run_oracle st text (PyVal.pyBool false) false false false
      graph_ratio rm nnf cri ap).stages = [] ∧
    (rag_answer run_oracle st text (PyVal.pyBool false) false false false
      graph_ratio rm nnf cri ap).ran = false := by
  rw [rag_answer_validation_eq _ _ _ _ _ _ _ _ _ _ _ _ (by decide)]
  exact ⟨rfl, rfl, rfl, rfl⟩

/-! ### Claim C5 -/

/-- C5: vector retrieval is composed exactly when `vector_only ∨ graph_vector`,
and the graph chain (keyword extraction, then vertex-ID resolution, then graph
query, in that order) is composed exactly when `graph_only ∨ graph_vector`;
no other condition enables either retrieval path. -/
theorem C5_retrieval_composition (run_oracle : RunOracle) (st : ConfigState)
    (text : String) (raw_answer : PyVal) (v g gv : Bool) ( graph_ratio : ℚ)
    (rm : RerankMethod) (nnf : Bool) (cri ap : String) :
    (Stage.query_vector_index ∈
        (rag_answer run_oracle st text raw_answer v g gv graph_ratio rm nnf cri ap).stages
      ↔ (v || gv) = true) ∧
    ((rag_answer run_oracle st text raw_answer v g gv graph_ratio rm nnf cri ap).stages.filter
        isGraphStage =
      if (g || gv) = true then
        [Stage.extract_keywords, Stage.keywords_to_vid, Stage.query_graphdb]
      else []) := by
  rw [rag_answer_stages_eq]
  cases hv : (pyIsFalse raw_answer && !(v || gv) && !(g || gv)) with
  | true =>
    have hb : (v || gv) = false ∧ (g || gv) = false := by
      rcases Bool.and_eq_true_iff.mp hv with ⟨h1, h2⟩
      rcases Bool.and_eq_true_iff.mp h1 with ⟨_, h3⟩
      constructor
      · cases hvv : (v || gv) <;> simp [hvv] at h3 ⊢
      · cases hgg : (g || gv) <;> simp [hgg] at h2 ⊢
    rw [if_pos rfl, hb.1, hb.2]
    constructor
    · simp
    · simp
  | false =>
    rw [if_neg (by simp)]
    cases hvv : (v || gv) <;> cases hgg : (g || gv) <;>
      simp [ragStages, isGraphStage] <;> decide

/-! ### Claim C6 -/

/-- C6: the configuration reconciliation overwrites and persists the stored
snapshot exactly when the question, the prompt template, or the rerank hint
differs from the snapshot; otherwise the state (including the write counter)
is untouched. -/
theorem C6_config_reconciliation (run_oracle : RunOracle) (st : ConfigState)
    (text : String) (raw_answer : PyVal) (v g gv : Bool) ( graph_ratio : ℚ)
    (rm : RerankMethod) (nnf : Bool) (cri ap : String) :
    (rag_answer run_oracle st text raw_answer v g gv graph_ratio rm nnf cri ap).state =
      (if ((st.config.default_question != text) || (st.config.answer_prompt != ap))
          || (st.config.custom_rerank_info != cri) then
        (⟨⟨text, ap, cri⟩, ⟨text, ap, cri⟩, st.yamlWrites + 1⟩ : ConfigState)
      else st) := by
  rw [rag_answer_state_eq]
  rfl

/-! ### Claim C9 -/

/-- C9: the no-mode validation compares `raw_answer` to the literal `False`
by identity, so a falsy non-`False` value (such as `None` or `0`) with all
other flags false is not rejected: the pipeline is still composed (with no
retrieval stages) and run. -/
theorem C9_falsy_raw_not_rejected (run_oracle : RunOracle) (st : ConfigState)
    (text : String) (raw_answer : PyVal) ( graph_ratio : ℚ) (rm : RerankMethod)
    (nnf : Bool) (cri ap : String)
    (hfalsy : pyTruthy raw_answer = false)
    (hnotlit : raw_answer ≠ PyVal.pyBool false) :
    noModeWarning ∉
      (rag_answer run_oracle st text raw_answer false false false
        graph_ratio rm nnf cri ap).warnings ∧
    (rag_answer run_oracle st text raw_answer false false false
      graph_ratio rm nnf cri ap).ran = true ∧
    (rag_answer run_oracle st text raw_answer false false false
      graph_ratio rm nnf cri ap).stages =
        [Stage.merge_dedup_rerank, Stage.synthesize_answer] := by
  have hv : (pyIsFalse raw_answer && !(false || false) && !(false || false)) = false := by
    have : pyIsFalse raw_answer = false := by
      unfold pyIsFalse
      exact beq_eq_false_iff_ne.mpr hnotlit
    simp [this]
  cases hctx : run_oracle text with
  | ok ctx =>
    rw [rag_answer_ok_eq _ _ _ _ _ _ _ _ _ _ _ _ _ hv hctx]
    refine ⟨?_, rfl, rfl⟩
    cases ctx.switch_to_bleu <;> simp <;> decide
  | error e =>
    rw [rag_answer_error_eq _ _ _ _ _ _ _ _ _ _ _ _ _ hv hctx]
    exact ⟨by simp, rfl, rfl⟩

/-- Witness for C9 at `raw_answer = None` with a concrete oracle. -/
theorem C9_falsy_raw_not_rejected_witness :
    noModeWarning ∉
      (rag_answer (fun _ => Except.ok ⟨false, Option.none, Option.none, Option.none,
          Option.none, Option.none, Option.none, Option.none⟩)
        ⟨⟨"", "", ""⟩, ⟨"", "", ""⟩, 0⟩ "q" PyVal.pyNone false false false
        0 RerankMethod.bleu false "" "p").warnings ∧
    (rag_answer (fun _ => Except.ok ⟨false, Option.none, Option.none, Option.none,
        Option.none, Option.none, Option.none, Option.none⟩)
      ⟨⟨"", "", ""⟩, ⟨"", "", ""⟩, 0⟩ "q" PyVal.pyNone false false false
      0 RerankMethod.bleu false "" "p").ran = true ∧
    (rag_answer (fun _ => Except.ok ⟨false, Option.none, Option.none, Option.none,
        Option.none, Option.none, Option.none, Option.none⟩)
      ⟨⟨"", "", ""⟩, ⟨"", "", ""⟩, 0⟩ "q" PyVal.pyNone false false false
      0 RerankMethod.bleu false "" "p").stages =
        [Stage.merge_dedup_rerank, Stage.synthesize_answer] :=
  C9_falsy_raw_not_rejected
    (fun _ => Except.ok ⟨false, Option.none, Option.none, Option.none,
      Option.none, Option.none, Option.none, Option.none⟩)
    ⟨⟨"", "", ""⟩, ⟨"", "", ""⟩, 0⟩ "q" PyVal.pyNone 0 RerankMethod.bleu false "" "p"
    (by decide) (by decide)

/-! ### Claim C2 -/

/-- C2 counterexample: on the no-mode validation path the persisted
configuration snapshot is NOT left as it was — the reconciliation runs and
persists a changed snapshot before the validation check. -/
theorem C2_counterexample :
    ((rag_answer (fun _ => Except.error (RunError.valueError "")) 
        ⟨⟨"a", "p", "r"⟩, ⟨"a", "p", "r"⟩, 0⟩ "b" (PyVal.pyBool false)
        false false false 0 RerankMethod.bleu false "r" "p").warnings =
      [noModeWarning]) ∧
    ((rag_answer (fun _ => Except.error (RunError.valueError "")) 
        ⟨⟨"a", "p", "r"⟩, ⟨"a", "p", "r"⟩, 0⟩ "b" (PyVal.pyBool false)
        false false false 0 RerankMethod.bleu false "r" "p").state.persisted ≠
      (⟨"a", "p", "r"⟩ : PromptConfig)) ∧
    ((rag_answer (fun _ => Except.error (RunError.valueError "")) 
        ⟨⟨"a", "p", "r"⟩, ⟨"a", "p", "r"⟩, 0⟩ "b" (PyVal.pyBool false)
        false false false 0 RerankMethod.bleu false "r" "p").state.yamlWrites = 1) := by
  refine ⟨rfl, ?_, rfl⟩
  decide

/-- C2 amended: on every ValidationError path processing stops (no retrieval
pipeline is composed or run; no rows are answered), but partial state can be
written first: the no-mode path still reconciles and may persist the prompt
snapshot, an unsupported-format upload has already deleted the answers file,
and an empty upload has deleted the answers file and overwritten the
questions file. -/
theorem C2_amended_validation_paths :
    (∀ (run_oracle : RunOracle) (st : ConfigState) (text : String)
        ( graph_ratio : ℚ) (rm : RerankMethod) (nnf : Bool) (cri ap : String),
      (rag_answer run_oracle st text (PyVal.pyBool false) false false false
        graph_ratio rm nnf cri ap).stages = [] ∧
      (rag_answer run_oracle st text (PyVal.pyBool false) false false false
        graph_ratio rm nnf cri ap).ran = false ∧
      (rag_answer run_oracle st text (PyVal.pyBool false) false false false
        graph_ratio rm nnf cri ap).state = update_prompt_config st text ap cri) ∧
    (∀ (fs : FileSystem) (f : NamedFile) (lc : Option Nat),
      strEndsWith f.name xlsxSuffix = false → strEndsWith f.name csvSuffix = false →
      (read_file_to_excel fs (Option.some f) lc).result =
          Except.error unsupportedFileError ∧
      (read_file_to_excel fs (Option.some f) lc).fs.questions = fs.questions ∧
      (read_file_to_excel fs (Option.some f) lc).fs.answers = Option.none) ∧
    (∀ (fs : FileSystem) (f : NamedFile) (lc : Option Nat),
      strEndsWith f.name xlsxSuffix = true → (truncRows f.content lc).nrows = 0 →
      (read_file_to_excel fs (Option.some f) lc).warnings = [emptyFileWarning] ∧
      (read_file_to_excel fs (Option.some f) lc).fs.answers = Option.none ∧
      (read_file_to_excel fs (Option.some f) lc).fs.questions =
          Option.some (truncRows f.content lc) ∧
      (read_file_to_excel fs (Option.some f) lc).result =
          Except.ok (truncRows f.content lc, 0)) := by
  refine ⟨?_, ?_, ?_⟩
  · intro run_oracle st text graph_ratio rm nnf cri ap
    rw [rag_answer_validation_eq _ _ _ _ _ _ _ _ _ _ _ _ (by decide)]
    exact ⟨rfl, rfl, rfl⟩
  · intro fs f lc h1 h2
    simp [read_file_to_excel, h1, h2]
  · intro fs f lc h1 h0
    simp [read_file_to_excel, h1, h0]

/-- Witness for C2 amended, at a text upload and an empty xlsx upload. -/
theorem C2_amended_validation_paths_witness :
    ((rag_answer (fun _ => Except.error (RunError.valueError ""))
        ⟨⟨"a", "p", "r"⟩, ⟨"a", "p", "r"⟩, 0⟩ "b" (PyVal.pyBool false)
        false false false 0 RerankMethod.bleu false "r" "p").stages = [] ∧
      (rag_answer (fun _ => Except.error (RunError.valueError ""))
        ⟨⟨"a", "p", "r"⟩, ⟨"a", "p", "r"⟩, 0⟩ "b" (PyVal.pyBool false)
        false false false 0 RerankMethod.bleu false "r" "p").ran = false ∧
      (rag_answer (fun _ => Except.error (RunError.valueError ""))
        ⟨⟨"a", "p", "r"⟩, ⟨"a", "p", "r"⟩, 0⟩ "b" (PyVal.pyBool false)
        false false false 0 RerankMethod.bleu false "r" "p").state =
        update_prompt_config ⟨⟨"a", "p", "r"⟩, ⟨"a", "p", "r"⟩, 0⟩ "b" "p" "r") ∧
    ((read_file_to_excel ⟨Option.some ⟨[]⟩, Option.some ⟨[]⟩⟩
        (Option.some ⟨"notes.txt", ⟨[]⟩⟩) Option.none).result =
          Except.error unsupportedFileError ∧
      (read_file_to_excel ⟨Option.some ⟨[]⟩, Option.some ⟨[]⟩⟩
        (Option.some ⟨"notes.txt", ⟨[]⟩⟩) Option.none).fs.questions =
          (⟨Option.some ⟨[]⟩, Option.some ⟨[]⟩⟩ : FileSystem).questions ∧
      (read_file_to_excel ⟨Option.some ⟨[]⟩, Option.some ⟨[]⟩⟩
        (Option.some ⟨"notes.txt", ⟨[]⟩⟩) Option.none).fs.answers = Option.none) ∧
    ((read_file_to_excel ⟨Option.none, Option.some ⟨[]⟩⟩
        (Option.some ⟨"q.xlsx", ⟨[]⟩⟩) Option.none).warnings = [emptyFileWarning] ∧
      (read_file_to_excel ⟨Option.none, Option.some ⟨[]⟩⟩
        (Option.some ⟨"q.xlsx", ⟨[]⟩⟩) Option.none).fs.answers = Option.none ∧
      (read_file_to_excel ⟨Option.none, Option.some ⟨[]⟩⟩
        (Option.some ⟨"q.xlsx", ⟨[]⟩⟩) Option.none).fs.questions =
          Option.some (truncRows (⟨[]⟩ : DataFrame) Option.none) ∧
      (read_file_to_excel ⟨Option.none, Option.some ⟨[]⟩⟩
        (Option.some ⟨"q.xlsx", ⟨[]⟩⟩) Option.none).result =
          Except.ok (truncRows (⟨[]⟩ : DataFrame) Option.none, 0)) :=
  ⟨C2_amended_validation_paths.1 (fun _ => Except.error (RunError.valueError ""))
      ⟨⟨"a", "p", "r"⟩, ⟨"a", "p", "r"⟩, 0⟩ "b" 0 RerankMethod.bleu false "r" "p",
    C2_amended_validation_paths.2.1 ⟨Option.some ⟨[]⟩, Option.some ⟨[]⟩⟩
      ⟨"notes.txt", ⟨[]⟩⟩ Option.none (by decide) (by decide),
    C2_amended_validation_paths.2.2 ⟨Option.none, Option.some ⟨[]⟩⟩
      ⟨"q.xlsx", ⟨[]⟩⟩ Option.none (by decide) (by decide)⟩

/-! ### Claim C7 -/

/-- C7: evaluating a persisted answers document that has none of the
recognized answer-mode columns raises the no-answers error before any metric
scorer is invoked: no scores are computed. -/
theorem C7_no_answer_columns {σ : Type} (scorer : RagData → List String → σ)
    (fs : FileSystem) (metrics : List String) (num : Nat) (adf : DataFrame)
    (hfs : fs.answers = Option.some adf)
    (hnone : ((adf.headRows num).colNames.any
      (fun c => rag_answer_header_dict.any (fun p => p.1 == c))) = false) :
    (evaluate_rag scorer fs metrics num).scorerCalls = 0 ∧
    (evaluate_rag scorer fs metrics num).result = Except.error noAnswersError := by
  unfold evaluate_rag
  rw [hfs]
  simp only [hnone]
  exact ⟨rfl, rfl⟩

/-- Witness for C7: a document with only a question column. -/
theorem C7_no_answer_columns_witness :
    (evaluate_rag (fun (_ : RagData) (_ : List String) => (0 : Nat))
      ⟨Option.none, Option.some ⟨[(colQuestion, [PCell.str "q"])]⟩⟩ [] 1).scorerCalls = 0 ∧
    (evaluate_rag (fun (_ : RagData) (_ : List String) => (0 : Nat))
      ⟨Option.none, Option.some ⟨[(colQuestion, [PCell.str "q"])]⟩⟩ [] 1).result =
        Except.error noAnswersError :=
  C7_no_answer_columns (fun _ _ => (0 : Nat))
    ⟨Option.none, Option.some ⟨[(colQuestion, [PCell.str "q"])]⟩⟩ [] 1
    ⟨[(colQuestion, [PCell.str "q"])]⟩ rfl (by decide)

/-! ### Evaluation lemmas for the batch loop -/

theorem batchLoop_nil (run_oracle : RunOracle) (raw : PyVal) (v g gv : Bool)
    ( graph_ratio : ℚ) (rm : RerankMethod) (nnf : Bool) (cri ap : String)
    (i : Nat) (df : DataFrame) (cfg : ConfigState) :
    batchLoop run_oracle raw v g gv graph_ratio rm nnf cri ap i [] df cfg =
      ⟨df, cfg, [], [], Option.none⟩ := rfl

theorem batchLoop_cons_err (run_oracle : RunOracle) (raw : PyVal) (v g gv : Bool)
    ( graph_ratio : ℚ) (rm : RerankMethod) (nnf : Bool) (cri ap : String)
    (i : Nat) (q : String) (rest : List String) (df : DataFrame)
    (cfg : ConfigState) (e : RunError)
    (hv : (pyIsFalse raw && !(v || gv) && !(g || gv)) = false)
    (hctx : run_oracle q = Except.error e) :
    batchLoop run_oracle raw v g gv graph_ratio rm nnf cri ap i (q :: rest) df cfg =
      ⟨df, update_prompt_config cfg q ap cri, [], [],
        Option.some (wrapRunError e)⟩ := by
  simp only [batchLoop]
  rw [rag_answer_error_eq _ _ _ _ _ _ _ _ _ _ _ _ _ hv hctx]

theorem batchLoop_cons_four (run_oracle : RunOracle) (raw : PyVal) (v g gv : Bool)
    ( graph_ratio : ℚ) (rm : RerankMethod) (nnf : Bool) (cri ap : String)
    (i : Nat) (q : String) (rest : List String) (df : DataFrame)
    (cfg : ConfigState)
    (hv : (pyIsFalse raw && !(v || gv) && !(g || gv)) = true) :
    batchLoop run_oracle raw v g gv graph_ratio rm nnf cri ap i (q :: rest) df cfg =
      ⟨df, update_prompt_config cfg q ap cri, [], [noModeWarning],
        Option.some unpackErrorMsg⟩ := by
  simp only [batchLoop]
  rw [rag_answer_validation_eq _ _ _ _ _ _ _ _ _ _ _ _ hv]

theorem batchLoop_cons_ok (run_oracle : RunOracle) (raw : PyVal) (v g gv : Bool)
    ( graph_ratio : ℚ) (rm : RerankMethod) (nnf : Bool) (cri ap : String)
    (i : Nat) (q : String) (rest : List String) (df : DataFrame)
    (cfg : ConfigState) (ctx : RunContext)
    (hv : (pyIsFalse raw && !(v || gv) && !(g || gv)) = false)
    (hctx : run_oracle q = Except.ok ctx) :
    batchLoop run_oracle raw v g gv graph_ratio rm nnf cri ap i (q :: rest) df cfg =
      ⟨(batchLoop run_oracle raw v g gv graph_ratio rm nnf cri ap (i + 1) rest
          (writeRowCells df i (ctx.raw_answer_result.getD "")
            (ctx.vector_only_answer_result.getD "")
            (ctx.graph_only_answer_result.getD "")
            (ctx.graph_vector_answer_result.getD "")
            ⟨ctx.vector_contexts, ctx.graph_contexts, ctx.graph_vector_contexts⟩)
          (update_prompt_config cfg q ap cri)).df,
        (batchLoop run_oracle raw v g gv graph_ratio rm nnf cri ap (i + 1) rest
          (writeRowCells df i (ctx.raw_answer_result.getD "")
            (ctx.vector_only_answer_result.getD "")
            (ctx.graph_only_answer_result.getD "")
            (ctx.graph_vector_answer_result.getD "")
            ⟨ctx.vector_contexts, ctx.graph_contexts, ctx.graph_vector_contexts⟩)
          (update_prompt_config cfg q ap cri)).cfg,
        i :: (batchLoop run_oracle raw v g gv graph_ratio rm nnf cri ap (i + 1) rest
          (writeRowCells df i (ctx.raw_answer_result.getD "")
            (ctx.vector_only_answer_result.getD "")
            (ctx.graph_only_answer_result.getD "")
            (ctx.graph_vector_answer_result.getD "")
            ⟨ctx.vector_contexts, ctx.graph_contexts, ctx.graph_vector_contexts⟩)
          (update_prompt_config cfg q ap cri)).trace,
        (if ctx.switch_to_bleu then [bleuFallbackWarning] else []) ++
          (batchLoop run_oracle raw v g gv graph_ratio rm nnf cri ap (i + 1) rest
            (writeRowCells df i (ctx.raw_answer_result.getD "")
              (ctx.vector_only_answer_result.getD "")
              (ctx.graph_only_answer_result.getD "")
              (ctx.graph_vector_answer_result.getD "")
              ⟨ctx.vector_contexts, ctx.graph_contexts, ctx.graph_vector_contexts⟩)
            (update_prompt_config cfg q ap cri)).warnings,
        (batchLoop run_oracle raw v g gv graph_ratio rm nnf cri ap (i + 1) rest
          (writeRowCells df i (ctx.raw_answer_result.getD "")
            (ctx.vector_only_answer_result.getD "")
            (ctx.graph_only_answer_result.getD "")
            (ctx.graph_vector_answer_result.getD "")
            ⟨ctx.vector_contexts, ctx.graph_contexts, ctx.graph_vector_contexts⟩)
          (update_prompt_config cfg q ap cri)).err⟩ := by
  simp only [batchLoop]
  rw [rag_answer_ok_eq _ _ _ _ _ _ _ _ _ _ _ _ _ hv hctx]

/-- Abort behaviour of the per-row loop: if the collaborator succeeds on every
question of `pre` and fails on `q`, the loop stops at `q` with the wrapped
error and has completed exactly the rows of `pre`, in order. -/
theorem batchLoop_abort (run_oracle : RunOracle) (raw : PyVal) (v g gv : Bool)
    ( graph_ratio : ℚ) (rm : RerankMethod) (nnf : Bool) (cri ap : String)
    (hv : (pyIsFalse raw && !(v || gv) && !(g || gv)) = false) :
    ∀ (pre : List String) (q : String) (post : List String) (i : Nat)
      (df : DataFrame) (cfg : ConfigState) (e : RunError),
      (∀ p ∈ pre, ∃ ctx, run_oracle p = Except.ok ctx) →
      run_oracle q = Except.error e →
      (batchLoop run_oracle raw v g gv graph_ratio rm nnf cri ap i
          (pre ++ q :: post) df cfg).err = Option.some (wrapRunError e) ∧
      (batchLoop run_oracle raw v g gv graph_ratio rm nnf cri ap i
          (pre ++ q :: post) df cfg).trace = List.range' i pre.length := by
  intro pre
  induction pre with
  | nil =>
    intro q post i df cfg e hpre herr
    rw [List.nil_append,
      batchLoop_cons_err _ _ _ _ _ _ _ _ _ _ _ _ _ _ _ _ hv herr]
    exact ⟨rfl, rfl⟩
  | cons p pre ih =>
    intro q post i df cfg e hpre herr
    obtain ⟨ctx, hctx⟩ := hpre p (List.mem_cons_self p pre)
    rw [List.cons_append,
      batchLoop_cons_ok _ _ _ _ _ _ _ _ _ _ _ _ _ _ _ _ hv hctx]
    have hrec := ih q post (i + 1)
      (writeRowCells df i (ctx.raw_answer_result.getD "")
        (ctx.vector_only_answer_result.getD "")
        (ctx.graph_only_answer_result.getD "")
        (ctx.graph_vector_answer_result.getD "")
        ⟨ctx.vector_contexts, ctx.graph_contexts, ctx.graph_vector_contexts⟩)
      (update_prompt_config cfg p ap cri) e
      (fun x hx => hpre x (List.mem_cons_of_mem p hx)) herr
    refine ⟨hrec.1, ?_⟩
    show i :: _ = _
    rw [List.length_cons, List.range'_succ, hrec.2]

theorem length_firstColQuestions (df : DataFrame) :
    (firstColQuestions df).length = df.nrows := by
  unfold firstColQuestions DataFrame.nrows
  cases df.cols with
  | nil => rfl
  | cons c t => simp

/-! ### Claim C8 -/

/-- C8: batch processing is strictly sequential and aborts on error: when the
collaborator succeeds on the questions of `pre` and raises on `q`, exactly
the rows of `pre` complete (in order), no later row is processed, the run
returns the wrapped error, and no answers document is persisted (the storage
state is unchanged). -/
theorem C8_sequential_abort (run_oracle : RunOracle) (raw : PyVal) (v g gv : Bool)
    ( graph_ratio : ℚ) (rm : RerankMethod) (nnf : Bool) (cri ap : String)
    (mlc : Nat) (fs : FileSystem) (cfg : ConfigState) (qdf : DataFrame)
    (pre : List String) (q : String) (post : List String) (e : RunError)
    (hv : (pyIsFalse raw && !(v || gv) && !(g || gv)) = false)
    (hq : fs.questions = Option.some qdf)
    (hsplit : firstColQuestions qdf = pre ++ q :: post)
    (hpre : ∀ p ∈ pre, ∃ ctx, run_oracle p = Except.ok ctx)
    (herr : run_oracle q = Except.error e) :
    (several_rag_answer run_oracle raw v g gv graph_ratio rm nnf cri ap
      mlc fs cfg).trace = List.range pre.length ∧
    (several_rag_answer run_oracle raw v g gv graph_ratio rm nnf cri ap
      mlc fs cfg).fs = fs ∧
    (several_rag_answer run_oracle raw v g gv graph_ratio rm nnf cri ap
      mlc fs cfg).result = Except.error (wrapRunError e) := by
  obtain ⟨herr2, htrace⟩ := batchLoop_abort run_oracle raw v g gv graph_ratio
    rm nnf cri ap hv pre q post 0 qdf cfg e hpre herr
  simp only [several_rag_answer, hq]
  rw [hsplit, herr2]
  refine ⟨?_, rfl, rfl⟩
  show (batchLoop run_oracle raw v g gv graph_ratio rm nnf cri ap 0
    (pre ++ q :: post) qdf cfg).trace = _
  rw [htrace, List.range_eq_range']

/-- Witness for C8: a two-row batch whose second question makes the
collaborator raise; row 0 completes, row 1 aborts the run. -/
theorem C8_sequential_abort_witness :
    (several_rag_answer
      (fun s => if s == "q1" then Except.ok ⟨false, Option.none, Option.none,
        Option.none, Option.none, Option.none, Option.none, Option.none⟩
        else Except.error (RunError.valueError "boom"))
      (PyVal.pyBool true) false false false 0 RerankMethod.bleu false "" "p" 1
      ⟨Option.some ⟨[(colQuestion, [PCell.str "q1", PCell.str "q2"])]⟩, Option.none⟩
      ⟨⟨"", "", ""⟩, ⟨"", "", ""⟩, 0⟩).trace = List.range 1 ∧
    (several_rag_answer
      (fun s => if s == "q1" then Except.ok ⟨false, Option.none, Option.none,
        Option.none, Option.none, Option.none, Option.none, Option.none⟩
        else Except.error (RunError.valueError "boom"))
      (PyVal.pyBool true) false false false 0 RerankMethod.bleu false "" "p" 1
      ⟨Option.some ⟨[(colQuestion, [PCell.str "q1", PCell.str "q2"])]⟩, Option.none⟩
      ⟨⟨"", "", ""⟩, ⟨"", "", ""⟩, 0⟩).fs =
      ⟨Option.some ⟨[(colQuestion, [PCell.str "q1", PCell.str "q2"])]⟩, Option.none⟩ ∧
    (several_rag_answer
      (fun s => if s == "q1" then Except.ok ⟨false, Option.none, Option.none,
        Option.none, Option.none, Option.none, Option.none, Option.none⟩
        else Except.error (RunError.valueError "boom"))
      (PyVal.pyBool true) false false false 0 RerankMethod.bleu false "" "p" 1
      ⟨Option.some ⟨[(colQuestion, [PCell.str "q1", PCell.str "q2"])]⟩, Option.none⟩
      ⟨⟨"", "", ""⟩, ⟨"", "", ""⟩, 0⟩).result =
      Except.error (wrapRunError (RunError.valueError "boom")) :=
  C8_sequential_abort
    (fun s => if s == "q1" then Except.ok ⟨false, Option.none, Option.none,
      Option.none, Option.none, Option.none, Option.none, Option.none⟩
      else Except.error (RunError.valueError "boom"))
    (PyVal.pyBool true) false false false 0 RerankMethod.bleu false "" "p" 1
    ⟨Option.some ⟨[(colQuestion, [PCell.str "q1", PCell.str "q2"])]⟩, Option.none⟩
    ⟨⟨"", "", ""⟩, ⟨"", "", ""⟩, 0⟩
    ⟨[(colQuestion, [PCell.str "q1", PCell.str "q2"])]⟩
    ["q1"] "q2" [] (RunError.valueError "boom")
    (by decide) rfl (by decide)
    (by
      intro p hp
      have hp1 : p = "q1" := by simpa using hp
      subst hp1
      exact ⟨⟨false, Option.none, Option.none, Option.none, Option.none,
        Option.none, Option.none, Option.none⟩, rfl⟩)
    rfl

/-! ### Claim C10 -/

/-- C10: the no-mode validation path returns a 4-component tuple while every
successful path returns 5 components; consequently a batch run with all four
mode flags false fails on its first row with the unpack error (instead of
completing with a warning), processes no rows, and persists nothing. -/
theorem C10_tuple_shape_mismatch :
    (∀ (run_oracle : RunOracle) (st : ConfigState) (text : String)
        ( graph_ratio : ℚ) (rm : RerankMethod) (nnf : Bool) (cri ap : String),
      ∃ r, (rag_answer run_oracle st text (PyVal.pyBool false) false false false
          graph_ratio rm nnf cri ap).result = Except.ok r ∧ r.arity = 4) ∧
    (∀ (run_oracle : RunOracle) (st : ConfigState) (text : String) (raw : PyVal)
        (v g gv : Bool) ( graph_ratio : ℚ) (rm : RerankMethod) (nnf : Bool)
        (cri ap : String) (ctx : RunContext),
      run_oracle text = Except.ok ctx →
      (pyIsFalse raw && !(v || gv) && !(g || gv)) = false →
      ∃ r, (rag_answer run_oracle st text raw v g gv graph_ratio rm nnf cri ap).result =
        Except.ok r ∧ r.arity = 5) ∧
    (∀ (run_oracle : RunOracle) (fs : FileSystem) (qdf : DataFrame)
        ( graph_ratio : ℚ) (rm : RerankMethod) (nnf : Bool) (cri ap : String)
        (mlc : Nat) (cfg : ConfigState),
      fs.questions = Option.some qdf → 1 ≤ qdf.nrows →
      (several_rag_answer run_oracle (PyVal.pyBool false) false false false
        graph_ratio rm nnf cri ap mlc fs cfg).result = Except.error unpackErrorMsg ∧
      (several_rag_answer run_oracle (PyVal.pyBool false) false false false
        graph_ratio rm nnf cri ap mlc fs cfg).trace = [] ∧
      (several_rag_answer run_oracle (PyVal.pyBool false) false false false
        graph_ratio rm nnf cri ap mlc fs cfg).fs = fs) := by
  refine ⟨?_, ?_, ?_⟩
  · intro run_oracle st text graph_ratio rm nnf cri ap
    rw [rag_answer_validation_eq _ _ _ _ _ _ _ _ _ _ _ _ (by decide)]
    exact ⟨RagReturn.four "" "" "" "", rfl, rfl⟩
  · intro run_oracle st text raw v g gv graph_ratio rm nnf cri ap ctx hctx hv
    rw [rag_answer_ok_eq _ _ _ _ _ _ _ _ _ _ _ _ _ hv hctx]
    exact ⟨_, rfl, rfl⟩
  · intro run_oracle fs qdf graph_ratio rm nnf cri ap mlc cfg hq hn
    simp only [several_rag_answer, hq]
    cases hqs : firstColQuestions qdf with
    | nil =>
      have hl := length_firstColQuestions qdf
      rw [hqs] at hl
      simp at hl
      omega
    | cons q0 rest =>
      rw [batchLoop_cons_four run_oracle (PyVal.pyBool false) false false false
        graph_ratio rm nnf cri ap 0 q0 rest qdf cfg (by decide)]
      exact ⟨rfl, rfl, rfl⟩

/-- Witness for C10 at concrete inputs for all three components. -/
theorem C10_tuple_shape_mismatch_witness :
    (∃ r, (rag_answer (fun _ => Except.error (RunError.valueError "x"))
        ⟨⟨"", "", ""⟩, ⟨"", "", ""⟩, 0⟩ "q" (PyVal.pyBool false) false false false
        0 RerankMethod.bleu false "" "p").result = Except.ok r ∧ r.arity = 4) ∧
    (∃ r, (rag_answer (fun _ => Except.ok ⟨false, Option.none, Option.none,
        Option.none, Option.none, Option.none, Option.none, Option.none⟩)
        ⟨⟨"", "", ""⟩, ⟨"", "", ""⟩, 0⟩ "q" (PyVal.pyBool true) false false false
        0 RerankMethod.bleu false "" "p").result = Except.ok r ∧ r.arity = 5) ∧
    ((several_rag_answer (fun _ => Except.error (RunError.valueError "x"))
        (PyVal.pyBool false) false false false
        0 RerankMethod.bleu false "" "p" 1
        ⟨Option.some ⟨[(colQuestion, [PCell.str "q"])]⟩, Option.none⟩
        ⟨⟨"", "", ""⟩, ⟨"", "", ""⟩, 0⟩).result = Except.error unpackErrorMsg ∧
      (several_rag_answer (fun _ => Except.error (RunError.valueError "x"))
        (PyVal.pyBool false) false false false
        0 RerankMethod.bleu false "" "p" 1
        ⟨Option.some ⟨[(colQuestion, [PCell.str "q"])]⟩, Option.none⟩
        ⟨⟨"", "", ""⟩, ⟨"", "", ""⟩, 0⟩).trace = [] ∧
      (several_rag_answer (fun _ => Except.error (RunError.valueError "x"))
        (PyVal.pyBool false) false false false
        0 RerankMethod.bleu false "" "p" 1
        ⟨Option.some ⟨[(colQuestion, [PCell.str "q"])]⟩, Option.none⟩
        ⟨⟨"", "", ""⟩, ⟨"", "", ""⟩, 0⟩).fs =
        ⟨Option.some ⟨[(colQuestion, [PCell.str "q"])]⟩, Option.none⟩) :=
  ⟨C10_tuple_shape_mismatch.1 (fun _ => Except.error (RunError.valueError "x"))
      ⟨⟨"", "", ""⟩, ⟨"", "", ""⟩, 0⟩ "q" 0 RerankMethod.bleu false "" "p",
    C10_tuple_shape_mismatch.2.1 (fun _ => Except.ok ⟨false, Option.none,
        Option.none, Option.none, Option.none, Option.none, Option.none, Option.none⟩)
      ⟨⟨"", "", ""⟩, ⟨"", "", ""⟩, 0⟩ "q" (PyVal.pyBool true) false false false
      0 RerankMethod.bleu false "" "p"
      ⟨false, Option.none, Option.none, Option.none, Option.none, Option.none,
        Option.none, Option.none⟩ rfl (by decide),
    C10_tuple_shape_mismatch.2.2 (fun _ => Except.error (RunError.valueError "x"))
      ⟨Option.some ⟨[(colQuestion, [PCell.str "q"])]⟩, Option.none⟩
      ⟨[(colQuestion, [PCell.str "q"])]⟩ 0 RerankMethod.bleu false "" "p" 1
      ⟨⟨"", "", ""⟩, ⟨"", "", ""⟩, 0⟩ rfl (by decide)⟩

/-! ### Claim C4 -/

/-- The per-mode evaluation loop appends exactly one labeled row per list
entry, in list order. -/
theorem evalLoop_names {σ : Type} (scorer : RagData → List String → σ)
    (metrics : List String) :
    ∀ (l : List String) (adf : DataFrame) (calls : Nat) (acc : List (String × σ))
      (rows : List (String × σ)),
      (evalLoop scorer metrics l adf calls acc).result = Except.ok rows →
      rows.map Prod.fst = acc.map Prod.fst ++ l := by
  intro l
  induction l with
  | nil =>
    intro adf calls acc rows h
    simp only [evalLoop] at h
    have hacc : acc = rows := by simpa using h
    subst hacc
    simp
  | cons ans rest ih =>
    intro adf calls acc rows h
    simp only [evalLoop] at h
    split at h
    · exact absurd h (by simp)
    · split at h
      · exact absurd h (by simp)
      · split at h
        · have hr := ih _ _ _ _ h
          rw [hr]
          simp
        · exact absurd h (by simp)

/-- C4 counterexample: a persisted answers document whose mode columns appear
in the order (Graph-only, Vector-only); the evaluation rows come out in the
fixed recognized-mode order (Vector-only, Graph-only), not in the document's
column order. -/
theorem C4_counterexample :
    ((evaluate_rag (fun (_ : RagData) (_ : List String) => (0 : Nat))
      ⟨Option.none, Option.some ⟨[(colQuestion, [PCell.str "q"]),
        (colGraphOnly, [PCell.str "a"]), (colGraphCtx, [PCell.str "[]"]),
        (colVectorOnly, [PCell.str "b"]), (colVectorCtx, [PCell.str "[]"]),
        (colExpected, [PCell.str "g"])]⟩⟩ [] 1).result =
      Except.ok [(colVectorOnly, 0), (colGraphOnly, 0)]) ∧
    ((⟨[(colQuestion, [PCell.str "q"]),
        (colGraphOnly, [PCell.str "a"]), (colGraphCtx, [PCell.str "[]"]),
        (colVectorOnly, [PCell.str "b"]), (colVectorCtx, [PCell.str "[]"]),
        (colExpected, [PCell.str "g"])]⟩ : DataFrame).colNames.filter
      (fun c => (rag_answer_header_dict.map Prod.fst).contains c) =
      [colGraphOnly, colVectorOnly]) ∧
    ([(colVectorOnly, (0 : Nat)), (colGraphOnly, 0)].map Prod.fst ≠
      [colGraphOnly, colVectorOnly]) := by
  refine ⟨rfl, by decide, by decide⟩

/-- C4 amended: the evaluation returns one row per answer-mode column present
in the persisted document, labeled with the mode's column name, but ordered
by the fixed recognized-mode order (Vector-only, Graph-only, Graph-Vector)
of `rag_answer_header_dict`, not by the document's own column order. -/
theorem C4_amended_fixed_mode_order {σ : Type} (scorer : RagData → List String → σ)
    (fs : FileSystem) (metrics : List String) (num : Nat) (adf : DataFrame)
    (rows : List (String × σ))
    (hfs : fs.answers = Option.some adf)
    (hok : (evaluate_rag scorer fs metrics num).result = Except.ok rows) :
    rows.map Prod.fst = (rag_answer_header_dict.map Prod.fst).filter
      (fun ans => (adf.headRows num).hasCol ans) := by
  simp only [evaluate_rag, hfs] at hok
  split at hok
  · exact absurd hok (by simp)
  · have hr := evalLoop_names scorer metrics _ _ _ _ _ hok
    rw [hr]
    simp

/-- Witness for C4 amended, at the counterexample document. -/
theorem C4_amended_fixed_mode_order_witness :
    ([(colVectorOnly, (0 : Nat)), (colGraphOnly, 0)].map Prod.fst =
      (rag_answer_header_dict.map Prod.fst).filter
        (fun ans => ((⟨[(colQuestion, [PCell.str "q"]),
          (colGraphOnly, [PCell.str "a"]), (colGraphCtx, [PCell.str "[]"]),
          (colVectorOnly, [PCell.str "b"]), (colVectorCtx, [PCell.str "[]"]),
          (colExpected, [PCell.str "g"])]⟩ : DataFrame).headRows 1).hasCol ans)) :=
  C4_amended_fixed_mode_order (fun _ _ => (0 : Nat))
    ⟨Option.none, Option.some ⟨[(colQuestion, [PCell.str "q"]),
      (colGraphOnly, [PCell.str "a"]), (colGraphCtx, [PCell.str "[]"]),
      (colVectorOnly, [PCell.str "b"]), (colVectorCtx, [PCell.str "[]"]),
      (colExpected, [PCell.str "g"])]⟩⟩ [] 1
    ⟨[(colQuestion, [PCell.str "q"]),
      (colGraphOnly, [PCell.str "a"]), (colGraphCtx, [PCell.str "[]"]),
      (colVectorOnly, [PCell.str "b"]), (colVectorCtx, [PCell.str "[]"]),
      (colExpected, [PCell.str "g"])]⟩
    [(colVectorOnly, 0), (colGraphOnly, 0)] rfl rfl

/-! ### Claim C3 -/

/-- C3 counterexample: a 2-row batch with `graph_vector` retrieval and an
always-failing online reranker produces one fallback advisory per row — two
in total, not exactly one. -/
theorem C3_counterexample :
    ((⟨[(colQuestion, [PCell.str "q1", PCell.str "q2"])]⟩ : DataFrame).nrows = 2) ∧
    ((several_rag_answer
      (fun _ => Except.ok ⟨true, Option.none, Option.none, Option.none,
        Option.some "A", Option.none, Option.none, Option.some ["c"]⟩)
      (PyVal.pyBool false) false false true 0 RerankMethod.reranker false "" "p" 1
      ⟨Option.some ⟨[(colQuestion, [PCell.str "q1", PCell.str "q2"])]⟩, Option.none⟩
      ⟨⟨"", "", ""⟩, ⟨"", "", ""⟩, 0⟩).warnings.count bleuFallbackWarning = 2) ∧
    ¬ ((several_rag_answer
      (fun _ => Except.ok ⟨true, Option.none, Option.none, Option.none,
        Option.some "A", Option.none, Option.none, Option.some ["c"]⟩)
      (PyVal.pyBool false) false false true 0 RerankMethod.reranker false "" "p" 1
      ⟨Option.some ⟨[(colQuestion, [PCell.str "q1", PCell.str "q2"])]⟩, Option.none⟩
      ⟨⟨"", "", ""⟩, ⟨"", "", ""⟩, 0⟩).warnings.count bleuFallbackWarning = 1) := by
  refine ⟨rfl, by decide, by decide⟩

theorem nrows_setAt (df : DataFrame) (i : Nat) (name : String) (v : PCell) :
    (df.setAt i name v).nrows = df.nrows := by
  unfold DataFrame.setAt
  split
  · cases hc : df.cols with
    | nil => simp [DataFrame.nrows, hc]
    | cons p t =>
      show (updF name i v p).2.length = DataFrame.nrows df
      rw [DataFrame.nrows, hc]
      unfold updF colUpd
      split
      · simp
      · rfl
  · cases hc : df.cols with
    | nil =>
      show ((List.replicate df.nrows PCell.none).set i v).length = DataFrame.nrows df
      rw [List.length_set, List.length_replicate]
    | cons p t =>
      show p.2.length = DataFrame.nrows df
      rw [DataFrame.nrows, hc]

theorem nrows_setAllNone (df : DataFrame) (name : String) :
    (df.setAllNone name).nrows = df.nrows := by
  unfold DataFrame.setAllNone
  split
  · cases hc : df.cols with
    | nil => simp [DataFrame.nrows, hc]
    | cons p t =>
      show (colUpd name (fun _ => List.replicate df.nrows PCell.none) p).2.length =
        DataFrame.nrows df
      unfold colUpd
      split
      · simp [List.length_replicate]
      · rw [DataFrame.nrows, hc]
  · cases hc : df.cols with
    | nil =>
      show (List.replicate df.nrows PCell.none).length = DataFrame.nrows df
      rw [List.length_replicate]
    | cons p t =>
      show p.2.length = DataFrame.nrows df
      rw [DataFrame.nrows, hc]

theorem getCol_isSome_of_hasCol {df : DataFrame} {name : String}
    (h : df.hasCol name = true) : ∃ cs, df.getCol name = Option.some cs := by
  unfold DataFrame.hasCol at h
  have hs : (df.cols.find? (fun q => q.1 == name)).isSome := by
    obtain ⟨p, hp, hpn⟩ := List.any_eq_true.mp h
    exact List.find?_isSome.mpr ⟨p, hp, hpn⟩
  unfold DataFrame.getCol findCol
  cases hf : df.cols.find? (fun q => q.1 == name) with
  | none => rw [hf] at hs; exact absurd hs (by simp)
  | some q => exact ⟨q.2, rfl⟩

theorem colLenOK_setAt_ne {df : DataFrame} {name name' : String} {N : Nat}
    (i : Nat) (v : PCell) (h : colLenOK df name' N) (hne : name' ≠ name) :
    colLenOK (df.setAt i name v) name' N := by
  intro cs hcs
  rw [DataFrame.getCol_setAt_ne df i name name' v hne] at hcs
  exact h cs hcs

theorem colLenOK_setAllNone_ne {df : DataFrame} {name name' : String} {N : Nat}
    (h : colLenOK df name' N) (hne : name' ≠ name) :
    colLenOK (df.setAllNone name) name' N := by
  intro cs hcs
  rw [DataFrame.getCol_setAllNone_ne df name name' hne] at hcs
  exact h cs hcs

theorem getCol_setAllNone_self (df : DataFrame) (name : String) :
    (df.setAllNone name).getCol name =
      Option.some (List.replicate df.nrows PCell.none) := by
  unfold DataFrame.setAllNone
  split
  · show findCol (df.cols.map (colUpd name _)) name = _
    rw [findCol_map_colUpd_self]
    obtain ⟨cs0, hcs0⟩ := getCol_isSome_of_hasCol (by assumption)
    rw [show findCol df.cols name = Option.some cs0 from hcs0]
    rfl
  · show findCol (df.cols ++ [(name, _)]) name = _
    rw [findCol_append,
      show findCol df.cols name = Option.none from
        DataFrame.getCol_eq_none_of_hasCol_false (by simpa using (by assumption :
          ¬ df.hasCol name = true))]
    simp [findCol_cons, Option.or]

theorem getCol_setAt_exists {df : DataFrame} {name : String} {N : Nat}
    (i : Nat) (v : PCell) (h : colLenOK df name N) (hnr : df.nrows = N)
    (hi : i < N) :
    ∃ cs, (df.setAt i name v).getCol name = Option.some cs ∧ cs.length = N ∧
      cs[i]? = Option.some v := by
  cases hc : df.hasCol name with
  | true =>
    obtain ⟨cs0, hcs0⟩ := getCol_isSome_of_hasCol hc
    refine ⟨cs0.set i v, ?_, ?_, ?_⟩
    · rw [DataFrame.getCol_setAt_self_of_hasCol df i name v hc, hcs0]
      rfl
    · rw [List.length_set]
      exact h cs0 hcs0
    · exact List.getElem?_set_eq_of_lt v (by rw [h cs0 hcs0]; exact hi)
  | false =>
    refine ⟨(List.replicate df.nrows PCell.none).set i v,
      DataFrame.getCol_setAt_self_of_absent df i name v hc, ?_, ?_⟩
    · rw [List.length_set, List.length_replicate, hnr]
    · exact List.getElem?_set_eq_of_lt v
        (by rw [List.length_replicate, hnr]; exact hi)

/-- Effect of one row write when the graph-vector columns are already present:
they are updated at exactly row `i`, and the context-column guard stays off. -/
theorem writeRowCells_spec (df : DataFrame) (i : Nat) (a b c d : String)
    (ctxs : ContextDict) (A C : List PCell)
    (hmem : colVectorCtx ∈ df.colNames)
    (hA : df.getCol colGraphVector = Option.some A)
    (hC : df.getCol colGraphVectorCtx = Option.some C) :
    (writeRowCells df i a b c d ctxs).getCol colGraphVector =
      Option.some (A.set i (strOrNoneCell d)) ∧
    (writeRowCells df i a b c d ctxs).getCol colGraphVectorCtx =
      Option.some (C.set i (optListCell ctxs.graph_vector_contexts)) ∧
    colVectorCtx ∈ (writeRowCells df i a b c d ctxs).colNames := by
  simp only [writeRowCells]
  set df1 := df.setAt i colBasic (strOrNoneCell a) with hdf1
  set df2 := df1.setAt i colVectorOnly (strOrNoneCell b) with hdf2
  set df3 := df2.setAt i colGraphOnly (strOrNoneCell c) with hdf3
  set df4 := df3.setAt i colGraphVector (strOrNoneCell d) with hdf4
  have hm1 : colVectorCtx ∈ df1.colNames := by
    rw [hdf1]
    exact DataFrame.mem_colNames_setAt df i colBasic colVectorCtx _ hmem
  have hm2 : colVectorCtx ∈ df2.colNames := by
    rw [hdf2]
    exact DataFrame.mem_colNames_setAt df1 i colVectorOnly colVectorCtx _ hm1
  have hm3 : colVectorCtx ∈ df3.colNames := by
    rw [hdf3]
    exact DataFrame.mem_colNames_setAt df2 i colGraphOnly colVectorCtx _ hm2
  have hm4 : colVectorCtx ∈ df4.colNames := by
    rw [hdf4]
    exact DataFrame.mem_colNames_setAt df3 i colGraphVector colVectorCtx _ hm3
  have hA1 : df1.getCol colGraphVector = Option.some A := by
    rw [hdf1, DataFrame.getCol_setAt_ne _ _ _ _ _ (by decide)]
    exact hA
  have hA2 : df2.getCol colGraphVector = Option.some A := by
    rw [hdf2, DataFrame.getCol_setAt_ne _ _ _ _ _ (by decide)]
    exact hA1
  have hA3 : df3.getCol colGraphVector = Option.some A := by
    rw [hdf3, DataFrame.getCol_setAt_ne _ _ _ _ _ (by decide)]
    exact hA2
  have hA4 : df4.getCol colGraphVector = Option.some (A.set i (strOrNoneCell d)) := by
    rw [hdf4, DataFrame.getCol_setAt_self_of_hasCol _ _ _ _
      (DataFrame.hasCol_of_findCol_some hA3), hA3]
    rfl
  have hC1 : df1.getCol colGraphVectorCtx = Option.some C := by
    rw [hdf1, DataFrame.getCol_setAt_ne _ _ _ _ _ (by decide)]
    exact hC
  have hC2 : df2.getCol colGraphVectorCtx = Option.some C := by
    rw [hdf2, DataFrame.getCol_setAt_ne _ _ _ _ _ (by decide)]
    exact hC1
  have hC3 : df3.getCol colGraphVectorCtx = Option.some C := by
    rw [hdf3, DataFrame.getCol_setAt_ne _ _ _ _ _ (by decide)]
    exact hC2
  have hC4 : df4.getCol colGraphVectorCtx = Option.some C := by
    rw [hdf4, DataFrame.getCol_setAt_ne _ _ _ _ _ (by decide)]
    exact hC3
  have h5 : df4.hasCol colVectorCtx = true := DataFrame.hasCol_iff_mem.mpr hm4
  simp only [h5, if_true]
  set df6 := df4.setAt i colVectorCtx (optListCell ctxs.vector_contexts) with hdf6
  set df7 := df6.setAt i colGraphCtx (optListCell ctxs.graph_contexts) with hdf7
  have hA6 : df6.getCol colGraphVector = Option.some (A.set i (strOrNoneCell d)) := by
    rw [hdf6, DataFrame.getCol_setAt_ne _ _ _ _ _ (by decide)]
    exact hA4
  have hA7 : df7.getCol colGraphVector = Option.some (A.set i (strOrNoneCell d)) := by
    rw [hdf7, DataFrame.getCol_setAt_ne _ _ _ _ _ (by decide)]
    exact hA6
  have hC6 : df6.getCol colGraphVectorCtx = Option.some C := by
    rw [hdf6, DataFrame.getCol_setAt_ne _ _ _ _ _ (by decide)]
    exact hC4
  have hC7 : df7.getCol colGraphVectorCtx = Option.some C := by
    rw [hdf7, DataFrame.getCol_setAt_ne _ _ _ _ _ (by decide)]
    exact hC6
  have hm6 : colVectorCtx ∈ df6.colNames := by
    rw [hdf6]
    exact DataFrame.mem_colNames_setAt df4 i colVectorCtx colVectorCtx _ hm4
  have hm7 : colVectorCtx ∈ df7.colNames := by
    rw [hdf7]
    exact DataFrame.mem_colNames_setAt df6 i colGraphCtx colVectorCtx _ hm6
  refine ⟨?_, ?_, ?_⟩
  · rw [DataFrame.getCol_setAt_ne _ _ _ _ _ (by decide)]
    exact hA7
  · rw [DataFrame.getCol_setAt_self_of_hasCol _ _ _ _
      (DataFrame.hasCol_of_findCol_some hC7), hC7]
    rfl
  · exact DataFrame.mem_colNames_setAt df7 i colGraphVectorCtx colVectorCtx _ hm7

/-- Effect of the first row write on an arbitrary rectangular frame: the
graph-vector answer and context columns exist afterwards with full height,
hold the written values at row `i`, and the `Vector Contexts` column exists. -/
theorem writeRowCells_init_spec (df : DataFrame) (i : Nat) (a b c d : String)
    (ctxs : ContextDict) (N : Nat)
    (hgv : colLenOK df colGraphVector N)
    (hgvc : colLenOK df colGraphVectorCtx N)
    (hnr : df.nrows = N) (hi : i < N) :
    (∃ A, (writeRowCells df i a b c d ctxs).getCol colGraphVector = Option.some A ∧
      A.length = N ∧ A[i]? = Option.some (strOrNoneCell d)) ∧
    (∃ C, (writeRowCells df i a b c d ctxs).getCol colGraphVectorCtx = Option.some C ∧
      C.length = N ∧ C[i]? = Option.some (optListCell ctxs.graph_vector_contexts)) ∧
    colVectorCtx ∈ (writeRowCells df i a b c d ctxs).colNames := by
  simp only [writeRowCells]
  set df1 := df.setAt i colBasic (strOrNoneCell a) with hdf1
  set df2 := df1.setAt i colVectorOnly (strOrNoneCell b) with hdf2
  set df3 := df2.setAt i colGraphOnly (strOrNoneCell c) with hdf3
  set df4 := df3.setAt i colGraphVector (strOrNoneCell d) with hdf4
  have hnr1 : df1.nrows = N := by rw [hdf1, nrows_setAt, hnr]
  have hnr2 : df2.nrows = N := by rw [hdf2, nrows_setAt, hnr1]
  have hnr3 : df3.nrows = N := by rw [hdf3, nrows_setAt, hnr2]
  have hnr4 : df4.nrows = N := by rw [hdf4, nrows_setAt, hnr3]
  have hgv1 : colLenOK df1 colGraphVector N := by
    rw [hdf1]
    exact colLenOK_setAt_ne i _ hgv (by decide)
  have hgv2 : colLenOK df2 colGraphVector N := by
    rw [hdf2]
    exact colLenOK_setAt_ne i _ hgv1 (by decide)
  have hgv3 : colLenOK df3 colGraphVector N := by
    rw [hdf3]
    exact colLenOK_setAt_ne i _ hgv2 (by decide)
  have hgvc1 : colLenOK df1 colGraphVectorCtx N := by
    rw [hdf1]
    exact colLenOK_setAt_ne i _ hgvc (by decide)
  have hgvc2 : colLenOK df2 colGraphVectorCtx N := by
    rw [hdf2]
    exact colLenOK_setAt_ne i _ hgvc1 (by decide)
  have hgvc3 : colLenOK df3 colGraphVectorCtx N := by
    rw [hdf3]
    exact colLenOK_setAt_ne i _ hgvc2 (by decide)
  have hgvc4 : colLenOK df4 colGraphVectorCtx N := by
    rw [hdf4]
    exact colLenOK_setAt_ne i _ hgvc3 (by decide)
  obtain ⟨A4, hA4, hA4len, hA4i⟩ :=
    hdf4 ▸ getCol_setAt_exists i (strOrNoneCell d) hgv3 hnr3 hi
  -- the context-column guard
  cases h5 : df4.hasCol colVectorCtx with
  | true =>
    simp only [h5, if_true]
    have hm5 : colVectorCtx ∈ df4.colNames := DataFrame.hasCol_iff_mem.mp h5
    set df6 := df4.setAt i colVectorCtx (optListCell ctxs.vector_contexts) with hdf6
    set df7 := df6.setAt i colGraphCtx (optListCell ctxs.graph_contexts) with hdf7
    have hA6 : df6.getCol colGraphVector = Option.some A4 := by
      rw [hdf6, DataFrame.getCol_setAt_ne _ _ _ _ _ (by decide)]
      exact hA4
    have hA7 : df7.getCol colGraphVector = Option.some A4 := by
      rw [hdf7, DataFrame.getCol_setAt_ne _ _ _ _ _ (by decide)]
      exact hA6
    have hgvc6 : colLenOK df6 colGraphVectorCtx N := by
      rw [hdf6]
      exact colLenOK_setAt_ne i _ hgvc4 (by decide)
    have hgvc7 : colLenOK df7 colGraphVectorCtx N := by
      rw [hdf7]
      exact colLenOK_setAt_ne i _ hgvc6 (by decide)
    have hnr6 : df6.nrows = N := by rw [hdf6, nrows_setAt, hnr4]
    have hnr7 : df7.nrows = N := by rw [hdf7, nrows_setAt, hnr6]
    have hm6 : colVectorCtx ∈ df6.colNames := by
      rw [hdf6]
      exact DataFrame.mem_colNames_setAt df4 i colVectorCtx colVectorCtx _ hm5
    have hm7 : colVectorCtx ∈ df7.colNames := by
      rw [hdf7]
      exact DataFrame.mem_colNames_setAt df6 i colGraphCtx colVectorCtx _ hm6
    obtain ⟨C8, hC8, hC8len, hC8i⟩ :=
      getCol_setAt_exists i (optListCell ctxs.graph_vector_contexts) hgvc7 hnr7 hi
    refine ⟨⟨A4, ?_, hA4len, hA4i⟩, ⟨C8, hC8, hC8len, hC8i⟩, ?_⟩
    · rw [DataFrame.getCol_setAt_ne _ _ _ _ _ (by decide)]
      exact hA7
    · exact DataFrame.mem_colNames_setAt df7 i colGraphVectorCtx colVectorCtx _ hm7
  | false =>
    simp only [h5, Bool.false_eq_true, if_false]
    set df5a := df4.setAllNone colVectorCtx with hdf5a
    set df5b := df5a.setAllNone colGraphCtx with hdf5b
    set df5 := df5b.setAllNone colGraphVectorCtx with hdf5
    have hA5a : df5a.getCol colGraphVector = Option.some A4 := by
      rw [hdf5a, DataFrame.getCol_setAllNone_ne _ _ _ (by decide)]
      exact hA4
    have hA5b : df5b.getCol colGraphVector = Option.some A4 := by
      rw [hdf5b, DataFrame.getCol_setAllNone_ne _ _ _ (by decide)]
      exact hA5a
    have hA5 : df5.getCol colGraphVector = Option.some A4 := by
      rw [hdf5, DataFrame.getCol_setAllNone_ne _ _ _ (by decide)]
      exact hA5b
    have hnr5a : df5a.nrows = N := by rw [hdf5a, nrows_setAllNone, hnr4]
    have hnr5b : df5b.nrows = N := by rw [hdf5b, nrows_setAllNone, hnr5a]
    have hnr5 : df5.nrows = N := by rw [hdf5, nrows_setAllNone, hnr5b]
    have hgvc5 : colLenOK df5 colGraphVectorCtx N := by
      intro cs hcs
      rw [hdf5, getCol_setAllNone_self] at hcs
      have : cs = List.replicate df5b.nrows PCell.none := by simpa using hcs.symm
      rw [this, List.length_replicate, hnr5b]
    have hm5a : colVectorCtx ∈ df5a.colNames := by
      rw [hdf5a]
      exact DataFrame.self_mem_colNames_setAllNone df4 colVectorCtx
    have hm5b : colVectorCtx ∈ df5b.colNames := by
      rw [hdf5b]
      exact DataFrame.mem_colNames_setAllNone df5a colGraphCtx colVectorCtx hm5a
    have hm5 : colVectorCtx ∈ df5.colNames := by
      rw [hdf5]
      exact DataFrame.mem_colNames_setAllNone df5b colGraphVectorCtx colVectorCtx hm5b
    set df6 := df5.setAt i colVectorCtx (optListCell ctxs.vector_contexts) with hdf6
    set df7 := df6.setAt i colGraphCtx (optListCell ctxs.graph_contexts) with hdf7
    have hA6 : df6.getCol colGraphVector = Option.some A4 := by
      rw [hdf6, DataFrame.getCol_setAt_ne _ _ _ _ _ (by decide)]
      exact hA5
    have hA7 : df7.getCol colGraphVector = Option.some A4 := by
      rw [hdf7, DataFrame.getCol_setAt_ne _ _ _ _ _ (by decide)]
      exact hA6
    have hgvc6 : colLenOK df6 colGraphVectorCtx N := by
      rw [hdf6]
      exact colLenOK_setAt_ne i _ hgvc5 (by decide)
    have hgvc7 : colLenOK df7 colGraphVectorCtx N := by
      rw [hdf7]
      exact colLenOK_setAt_ne i _ hgvc6 (by decide)
    have hnr6 : df6.nrows = N := by rw [hdf6, nrows_setAt, hnr5]
    have hnr7 : df7.nrows = N := by rw [hdf7, nrows_setAt, hnr6]
    have hm6 : colVectorCtx ∈ df6.colNames := by
      rw [hdf6]
      exact DataFrame.mem_colNames_setAt df5 i colVectorCtx colVectorCtx _ hm5
    have hm7 : colVectorCtx ∈ df7.colNames := by
      rw [hdf7]
      exact DataFrame.mem_colNames_setAt df6 i colGraphCtx colVectorCtx _ hm6
    obtain ⟨C8, hC8, hC8len, hC8i⟩ :=
      getCol_setAt_exists i (optListCell ctxs.graph_vector_contexts) hgvc7 hnr7 hi
    refine ⟨⟨A4, ?_, hA4len, hA4i⟩, ⟨C8, hC8, hC8len, hC8i⟩, ?_⟩
    · rw [DataFrame.getCol_setAt_ne _ _ _ _ _ (by decide)]
      exact hA7
    · exact DataFrame.mem_colNames_setAt df7 i colGraphVectorCtx colVectorCtx _ hm7

/-- Behaviour of the per-row loop under an always-fallback collaborator with
`graph_vector` enabled: it completes every row in order, emits one fallback
advisory per row, and fills the graph-vector answer and context cells of
every processed row, leaving earlier rows untouched. -/
theorem batchLoop_fallback_spec (run_oracle : RunOracle) (raw : PyVal)
    (v g : Bool) ( graph_ratio : ℚ) (rm : RerankMethod) (nnf : Bool)
    (cri ap : String) (H : AlwaysFallbackOracle run_oracle) :
    ∀ (qs : List String) (i : Nat) (df : DataFrame) (cfg : ConfigState)
      (A C : List PCell) (N : Nat),
      df.getCol colGraphVector = Option.some A → A.length = N →
      df.getCol colGraphVectorCtx = Option.some C → C.length = N →
      colVectorCtx ∈ df.colNames →
      i + qs.length ≤ N →
      (batchLoop run_oracle raw v g true graph_ratio rm nnf cri ap i qs df cfg).err =
        Option.none ∧
      (batchLoop run_oracle raw v g true graph_ratio rm nnf cri ap i qs df cfg).trace =
        List.range' i qs.length ∧
      (batchLoop run_oracle raw v g true graph_ratio rm nnf cri ap i qs df cfg).warnings =
        List.replicate qs.length bleuFallbackWarning ∧
      ∃ A' C',
        (batchLoop run_oracle raw v g true graph_ratio rm nnf cri ap i qs df
          cfg).df.getCol colGraphVector = Option.some A' ∧ A'.length = N ∧
        (batchLoop run_oracle raw v g true graph_ratio rm nnf cri ap i qs df
          cfg).df.getCol colGraphVectorCtx = Option.some C' ∧ C'.length = N ∧
        (∀ j, j < i → A'[j]? = A[j]? ∧ C'[j]? = C[j]?) ∧
        (∀ k, k < qs.length →
          (∃ s, s ≠ "" ∧ A'[i + k]? = Option.some (PCell.str s)) ∧
          (∃ xs, C'[i + k]? = Option.some (PCell.list xs))) := by
  intro qs
  induction qs with
  | nil =>
    intro i df cfg A C N hA hAlen hC hClen hmem hiN
    rw [batchLoop_nil]
    refine ⟨rfl, rfl, rfl, A, C, hA, hAlen, hC, hClen, fun j hj => ⟨rfl, rfl⟩, ?_⟩
    intro k hk
    exact absurd hk (by simp)
  | cons q rest ih =>
    intro i df cfg A C N hA hAlen hC hClen hmem hiN
    obtain ⟨ctx, hctx, hsw, ⟨s, hgvs, hsne⟩, ⟨xs, hxs⟩⟩ := H q
    have hv : (pyIsFalse raw && !(v || true) && !(g || true)) = false := by simp
    rw [batchLoop_cons_ok run_oracle raw v g true graph_ratio rm nnf cri ap
      i q rest df cfg ctx hv hctx]
    have hiN' : i < N := by
      have := hiN
      simp only [List.length_cons] at this
      omega
    have hdval : strOrNoneCell (ctx.graph_vector_answer_result.getD "") =
        PCell.str s := by
      rw [hgvs]
      unfold strOrNoneCell
      simp [hsne]
    have hcval : optListCell
        (⟨ctx.vector_contexts, ctx.graph_contexts, ctx.graph_vector_contexts⟩ :
          ContextDict).graph_vector_contexts = PCell.list xs := by
      show optListCell ctx.graph_vector_contexts = PCell.list xs
      rw [hxs]
      rfl
    obtain ⟨W1, W2, W3⟩ := writeRowCells_spec df i
      (ctx.raw_answer_result.getD "") (ctx.vector_only_answer_result.getD "")
      (ctx.graph_only_answer_result.getD "") (ctx.graph_vector_answer_result.getD "")
      ⟨ctx.vector_contexts, ctx.graph_contexts, ctx.graph_vector_contexts⟩
      A C hmem hA hC
    rw [hdval] at W1
    rw [hcval] at W2
    have hrec := ih (i + 1)
      (writeRowCells df i (ctx.raw_answer_result.getD "")
        (ctx.vector_only_answer_result.getD "")
        (ctx.graph_only_answer_result.getD "")
        (ctx.graph_vector_answer_result.getD "")
        ⟨ctx.vector_contexts, ctx.graph_contexts, ctx.graph_vector_contexts⟩)
      (update_prompt_config cfg q ap cri)
      (A.set i (PCell.str s)) (C.set i (PCell.list xs)) N
      W1 (by rw [List.length_set]; exact hAlen)
      W2 (by rw [List.length_set]; exact hClen)
      W3
      (by simp only [List.length_cons] at hiN; omega)
    obtain ⟨hrecerr, hrectrace, hrecwarn, A', C', hA', hA'len, hC', hC'len,
      hframe, hcells⟩ := hrec
    simp only [hsw, if_true]
    refine ⟨hrecerr, ?_, ?_, A', C', hA', hA'len, hC', hC'len, ?_, ?_⟩
    · show _ :: _ = _
      rw [List.length_cons, List.range'_succ, hrectrace]
    · show _ ++ _ = _
      rw [List.length_cons, List.replicate_succ, hrecwarn]
      rfl
    · intro j hj
      obtain ⟨hfa, hfc⟩ := hframe j (by omega)
      constructor
      · rw [hfa]
        exact List.getElem?_set_ne (by omega)
      · rw [hfc]
        exact List.getElem?_set_ne (by omega)
    · intro k hk
      cases k with
      | zero =>
        obtain ⟨hfa, hfc⟩ := hframe i (by omega)
        constructor
        · refine ⟨s, hsne, ?_⟩
          rw [Nat.add_zero, hfa]
          exact List.getElem?_set_eq_of_lt (PCell.str s) (by rw [hAlen]; exact hiN')
        · refine ⟨xs, ?_⟩
          rw [Nat.add_zero, hfc]
          exact List.getElem?_set_eq_of_lt (PCell.list xs) (by rw [hClen]; exact hiN')
      | succ k' =>
        have hk' : k' < rest.length := by
          simp only [List.length_cons] at hk
          omega
        have harith : i + (k' + 1) = (i + 1) + k' := by omega
        rw [harith]
        exact hcells k' hk'

theorem colLenOK_of_rectangular {df : DataFrame} (h : rectangular df)
    (name : String) : colLenOK df name df.nrows := by
  intro cs hcs
  unfold DataFrame.getCol findCol at hcs
  cases hf : df.cols.find? (fun p => p.1 == name) with
  | none => rw [hf] at hcs; exact absurd hcs (by simp)
  | some q =>
    rw [hf] at hcs
    have hq2 : q.2 = cs := by simpa using hcs
    rw [← hq2]
    exact h q (List.mem_of_find?_eq_some hf)

theorem all_none_false_of_cell {cs : List PCell} {j : Nat} {x : PCell}
    (h : cs[j]? = Option.some x) (hx : x ≠ PCell.none) :
    (cs.all (fun y => y == PCell.none)) = false := by
  obtain ⟨hl, rfl⟩ := List.getElem?_eq_some.mp h
  cases hall : cs.all (fun y => y == PCell.none) with
  | false => rfl
  | true =>
    have hmem := List.all_eq_true.mp hall _ (List.getElem_mem hl)
    rw [beq_iff_eq] at hmem
    exact absurd hmem hx

theorem getCol_dropna_keep {df : DataFrame} {name : String} {cs : List PCell}
    (h : df.getCol name = Option.some cs)
    (hk : (cs.all (fun y => y == PCell.none)) = false) :
    df.dropnaCols.getCol name = Option.some cs := by
  unfold DataFrame.dropnaCols DataFrame.getCol
  exact findCol_filter _ h (by simp [hk])

theorem getCol_dumpsStep_ne (acc : DataFrame) (h name : String)
    (hne : name ≠ h) :
    (if acc.hasCol h then acc.mapCol h jsonDumpsCell else acc).getCol name =
      acc.getCol name := by
  split
  · exact DataFrame.getCol_mapCol_ne acc h name _ hne
  · rfl

theorem getCol_dumpsStep_self {acc : DataFrame} {h : String} {cs : List PCell}
    (hcs : acc.getCol h = Option.some cs) :
    (if acc.hasCol h then acc.mapCol h jsonDumpsCell else acc).getCol h =
      Option.some (cs.map jsonDumpsCell) := by
  rw [if_pos (by rw [DataFrame.hasCol_of_findCol_some hcs])]
  rw [DataFrame.getCol_mapCol_self, hcs]
  rfl

/-- The context-serialization fold of `several_rag_answer` leaves the
graph-vector answer column unchanged and JSON-serializes the graph-vector
context column. -/
theorem dumpsFold_getCol (D : DataFrame) (A1 C1 : List PCell)
    (h1 : D.getCol colGraphVector = Option.some A1)
    (h2 : D.getCol colGraphVectorCtx = Option.some C1) :
    ((rag_answer_header_dict.map Prod.snd).foldl
      (fun acc h => if acc.hasCol h then acc.mapCol h jsonDumpsCell else acc)
      D).getCol colGraphVector = Option.some A1 ∧
    ((rag_answer_header_dict.map Prod.snd).foldl
      (fun acc h => if acc.hasCol h then acc.mapCol h jsonDumpsCell else acc)
      D).getCol colGraphVectorCtx = Option.some (C1.map jsonDumpsCell) := by
  have hmap : rag_answer_header_dict.map Prod.snd =
      [colVectorCtx, colGraphCtx, colGraphVectorCtx] := rfl
  rw [hmap]
  simp only [List.foldl_cons, List.foldl_nil]
  have hin1 : (if D.hasCol colVectorCtx then D.mapCol colVectorCtx jsonDumpsCell
      else D).getCol colGraphVectorCtx = Option.some C1 := by
    rw [getCol_dumpsStep_ne _ _ _ (by decide)]
    exact h2
  have hin2 : (if (if D.hasCol colVectorCtx then
        D.mapCol colVectorCtx jsonDumpsCell else D).hasCol colGraphCtx then
        (if D.hasCol colVectorCtx then D.mapCol colVectorCtx jsonDumpsCell
          else D).mapCol colGraphCtx jsonDumpsCell
      else (if D.hasCol colVectorCtx then D.mapCol colVectorCtx jsonDumpsCell
        else D)).getCol colGraphVectorCtx = Option.some C1 := by
    rw [getCol_dumpsStep_ne _ _ _ (by decide)]
    exact hin1
  constructor
  · rw [getCol_dumpsStep_ne _ _ _ (by decide), getCol_dumpsStep_ne _ _ _ (by decide),
      getCol_dumpsStep_ne _ _ _ (by decide)]
    exact h1
  · exact getCol_dumpsStep_self hin2

/-- C3 amended: for a batch run with `graph_vector` enabled whose online
reranker fails on every call, every row's graph-vector answer cell is a
non-empty string and its graph-vector context cell is serialized JSON in the
persisted document — but the user receives one fallback advisory per row
(N advisories for N rows), not exactly one in total. -/
theorem C3_amended_fallback_batch (run_oracle : RunOracle) (raw : PyVal)
    (v g : Bool) ( graph_ratio : ℚ) (rm : RerankMethod) (nnf : Bool)
    (cri ap : String) (mlc : Nat) (fs : FileSystem) (cfg : ConfigState)
    (qdf : DataFrame)
    (H : AlwaysFallbackOracle run_oracle)
    (hq : fs.questions = Option.some qdf)
    (hrect : rectangular qdf) :
    (several_rag_answer run_oracle raw v g true graph_ratio rm nnf cri ap mlc
      fs cfg).warnings = List.replicate qdf.nrows bleuFallbackWarning ∧
    ∃ pdf,
      (several_rag_answer run_oracle raw v g true graph_ratio rm nnf cri ap mlc
        fs cfg).fs.answers = Option.some pdf ∧
      ∀ i, i < qdf.nrows →
        (∃ s, s ≠ "" ∧ pdf.getCell i colGraphVector = Option.some (PCell.str s)) ∧
        (∃ xs, pdf.getCell i colGraphVectorCtx =
          Option.some (PCell.str (jsonDumpsList xs))) := by
  have hql := length_firstColQuestions qdf
  simp only [several_rag_answer, hq]
  cases hqs : firstColQuestions qdf with
  | nil =>
    rw [hqs] at hql
    have hN0 : qdf.nrows = 0 := by simpa using hql.symm
    rw [batchLoop_nil, hN0]
    exact ⟨rfl, _, rfl, fun i hi => absurd hi (by omega)⟩
  | cons q0 rest =>
    rw [hqs] at hql
    have hN : qdf.nrows = rest.length + 1 := by simpa using hql.symm
    obtain ⟨ctx, hctx, hsw, ⟨s0, hgvs, hs0ne⟩, ⟨xs0, hxs⟩⟩ := H q0
    have hv : (pyIsFalse raw && !(v || true) && !(g || true)) = false := by simp
    rw [batchLoop_cons_ok run_oracle raw v g true graph_ratio rm nnf cri ap
      0 q0 rest qdf cfg ctx hv hctx]
    have h0N : 0 < qdf.nrows := by omega
    obtain ⟨⟨A8, hA8, hA8len, hA8i⟩, ⟨C8, hC8, hC8len, hC8i⟩, hm8⟩ :=
      writeRowCells_init_spec qdf 0 (ctx.raw_answer_result.getD "")
        (ctx.vector_only_answer_result.getD "")
        (ctx.graph_only_answer_result.getD "")
        (ctx.graph_vector_answer_result.getD "")
        ⟨ctx.vector_contexts, ctx.graph_contexts, ctx.graph_vector_contexts⟩
        qdf.nrows (colLenOK_of_rectangular hrect _)
        (colLenOK_of_rectangular hrect _) rfl h0N
    obtain ⟨herr, htrace, hwarn, A', C', hA', hA'len, hC', hC'len, hframe, hcells⟩ :=
      batchLoop_fallback_spec run_oracle raw v g graph_ratio rm nnf cri ap H
        rest 1
        (writeRowCells qdf 0 (ctx.raw_answer_result.getD "")
          (ctx.vector_only_answer_result.getD "")
          (ctx.graph_only_answer_result.getD "")
          (ctx.graph_vector_answer_result.getD "")
          ⟨ctx.vector_contexts, ctx.graph_contexts, ctx.graph_vector_contexts⟩)
        (update_prompt_config cfg q0 ap cri) A8 C8 qdf.nrows
        hA8 hA8len hC8 hC8len hm8 (by omega)
    rw [herr]
    dsimp only
    have hdval : strOrNoneCell (ctx.graph_vector_answer_result.getD "") =
        PCell.str s0 := by
      rw [hgvs]
      unfold strOrNoneCell
      simp [hs0ne]
    have hcval : optListCell
        (⟨ctx.vector_contexts, ctx.graph_contexts, ctx.graph_vector_contexts⟩ :
          ContextDict).graph_vector_contexts = PCell.list xs0 := by
      show optListCell ctx.graph_vector_contexts = PCell.list xs0
      rw [hxs]
      rfl
    rw [hdval] at hA8i
    rw [hcval] at hC8i
    have hAcells : ∀ i, i < qdf.nrows →
        ∃ s, s ≠ "" ∧ A'[i]? = Option.some (PCell.str s) := by
      intro i hi
      cases i with
      | zero =>
        obtain ⟨hfa, _⟩ := hframe 0 (by omega)
        exact ⟨s0, hs0ne, by rw [hfa]; exact hA8i⟩
      | succ k =>
        have hk : k < rest.length := by omega
        obtain ⟨⟨s, hs, hcell⟩, _⟩ := hcells k hk
        exact ⟨s, hs, by rw [show k + 1 = 1 + k by omega]; exact hcell⟩
    have hCcells : ∀ i, i < qdf.nrows →
        ∃ xs, C'[i]? = Option.some (PCell.list xs) := by
      intro i hi
      cases i with
      | zero =>
        obtain ⟨_, hfc⟩ := hframe 0 (by omega)
        exact ⟨xs0, by rw [hfc]; exact hC8i⟩
      | succ k =>
        have hk : k < rest.length := by omega
        obtain ⟨_, ⟨xs, hcell⟩⟩ := hcells k hk
        exact ⟨xs, by rw [show k + 1 = 1 + k by omega]; exact hcell⟩
    obtain ⟨sw, hsw0, hcell0⟩ := hAcells 0 h0N
    obtain ⟨xw, hcellC0⟩ := hCcells 0 h0N
    have hdropA := getCol_dropna_keep hA'
      (all_none_false_of_cell hcell0 (by simp))
    have hdropC := getCol_dropna_keep hC'
      (all_none_false_of_cell hcellC0 (by simp))
    obtain ⟨hpdfA, hpdfC⟩ := dumpsFold_getCol _ A' C' hdropA hdropC
    refine ⟨?_, _, rfl, ?_⟩
    · simp [hsw, hwarn, hN, List.replicate_succ]
    · intro i hi
      obtain ⟨s, hs, hcA⟩ := hAcells i hi
      obtain ⟨xs, hcC⟩ := hCcells i hi
      constructor
      · refine ⟨s, hs, ?_⟩
        unfold DataFrame.getCell
        rw [hpdfA]
        exact hcA
      · refine ⟨xs, ?_⟩
        unfold DataFrame.getCell
        rw [hpdfC]
        show (C'.map jsonDumpsCell)[i]? = _
        rw [List.getElem?_map, hcC]
        rfl

/-- Witness for C3 amended: a one-row batch under an always-fallback oracle. -/
theorem C3_amended_fallback_batch_witness :
    (several_rag_answer
      (fun _ => Except.ok ⟨true, Option.none, Option.none, Option.none,
        Option.some "A", Option.none, Option.none, Option.some ["c"]⟩)
      (PyVal.pyBool false) false false true 0 RerankMethod.reranker false "" "p" 1
      ⟨Option.some ⟨[(colQuestion, [PCell.str "q1"])]⟩, Option.none⟩
      ⟨⟨"", "", ""⟩, ⟨"", "", ""⟩, 0⟩).warnings =
      List.replicate (⟨[(colQuestion, [PCell.str "q1"])]⟩ : DataFrame).nrows
        bleuFallbackWarning ∧
    ∃ pdf,
      (several_rag_answer
        (fun _ => Except.ok ⟨true, Option.none, Option.none, Option.none,
          Option.some "A", Option.none, Option.none, Option.some ["c"]⟩)
        (PyVal.pyBool false) false false true 0 RerankMethod.reranker false "" "p" 1
        ⟨Option.some ⟨[(colQuestion, [PCell.str "q1"])]⟩, Option.none⟩
        ⟨⟨"", "", ""⟩, ⟨"", "", ""⟩, 0⟩).fs.answers = Option.some pdf ∧
      ∀ i, i < (⟨[(colQuestion, [PCell.str "q1"])]⟩ : DataFrame).nrows →
        (∃ s, s ≠ "" ∧ pdf.getCell i colGraphVector = Option.some (PCell.str s)) ∧
        (∃ xs, pdf.getCell i colGraphVectorCtx =
          Option.some (PCell.str (jsonDumpsList xs))) :=
  C3_amended_fallback_batch
    (fun _ => Except.ok ⟨true, Option.none, Option.none, Option.none,
      Option.some "A", Option.none, Option.none, Option.some ["c"]⟩)
    (PyVal.pyBool false) false false 0 RerankMethod.reranker false "" "p" 1
    ⟨Option.some ⟨[(colQuestion, [PCell.str "q1"])]⟩, Option.none⟩
    ⟨⟨"", "", ""⟩, ⟨"", "", ""⟩, 0⟩
    ⟨[(colQuestion, [PCell.str "q1"])]⟩
    (fun q => ⟨⟨true, Option.none, Option.none, Option.none,
      Option.some "A", Option.none, Option.none, Option.some ["c"]⟩,
      rfl, rfl, ⟨"A", rfl, by decide⟩, ⟨["c"], rfl⟩⟩)
    rfl
    (by
      intro p hp
      have hp1 : p = (colQuestion, [PCell.str "q1"]) := by simpa using hp
      subst hp1
      rfl)
